import Mathlib

/-!
Verification development for the multimodal persona-training pipeline
(`src/core/training_pipeline.py`, `src/core/audio_analyzer.py`,
`src/core/video_analyzer.py`).  Python dictionaries whose keys may be
absent are modelled with `Option` fields; floating-point values are
modelled as exact rationals; per-file and per-stage failures are
modelled with `Except`/`Option` outcomes supplied by an environment.
-/

namespace CloneKing

/-- np.mean of a list of rationals (the sources only apply it to nonempty
lists; on `[]` this denotation is 0). -/
def npMean (l : List ℚ) : ℚ := l.sum / (l.length : ℚ)

/-- np.var of a list of rationals. -/
def npVar (l : List ℚ) : ℚ := npMean (l.map (fun x => (x - npMean l) ^ 2))

/-- np.min of a nonempty list (0 on `[]`, unused by the sources). -/
def npMin : List ℚ → ℚ
  | [] => 0
  | x :: xs => xs.foldl min x

/-- np.max of a nonempty list (0 on `[]`, unused by the sources). -/
def npMax : List ℚ → ℚ
  | [] => 0
  | x :: xs => xs.foldl max x

/-!
## Suitability scorer

`AudioAnalyzer._assess_training_suitability` and
`VideoAnalyzer._assess_training_suitability` accumulate `score` and
`max_score` over the criteria whose input keys are present, then set
`overall_score = (score / max_score) * 100` (audio; the video variant
additionally clamps with `min(100, ...)`) and derive a verdict from the
80/60/40 thresholds.  A criterion whose key is absent contributes
neither points nor maximum.  One criterion of the analysis is one
`CritResult` below; `none` inputs model absent dictionary keys.
-/

/-- Contribution of a single suitability criterion: points added to
`score`, points added to `max_score`, and the message appended to the
issue/recommendation/strength lists. -/
structure CritResult where
  pts : ℕ
  maxPts : ℕ
  issues : List String
  recommendations : List String
  strengths : List String
deriving Repr, DecidableEq

/-- Audio duration criterion (`if "duration" in basic_info`). -/
def durationCritA : Option ℚ → CritResult
  | none => ⟨0, 0, [], [], []⟩
  | some d =>
    if d < 5 then ⟨5, 20, ["Audio too short (minimum 5 seconds)"], [], []⟩
    else if d < 30 then ⟨15, 20, [], ["Longer audio (30+ seconds) improves training quality"], []⟩
    else ⟨20, 20, [], [], ["Good duration for voice training"]⟩

/-- Audio voice-quality criterion (`if "overall_quality_score" in voice_quality`). -/
def qualityCritA : Option ℚ → CritResult
  | none => ⟨0, 0, [], [], []⟩
  | some q =>
    if q < 3/10 then ⟨5, 25, ["Poor audio quality - consider re-recording"], [], []⟩
    else if q < 6/10 then ⟨15, 25, [], ["Audio quality could be improved"], []⟩
    else ⟨25, 25, [], [], ["Good audio quality"]⟩

/-- Audio SNR criterion (`if "snr_db" in voice_quality`). -/
def snrCritA : Option ℚ → CritResult
  | none => ⟨0, 0, [], [], []⟩
  | some snr =>
    if snr < 10 then ⟨5, 20, ["High background noise - record in quiet environment"], [], []⟩
    else if snr < 20 then ⟨15, 20, [], ["Reduce background noise for better results"], []⟩
    else ⟨20, 20, [], [], ["Low background noise"]⟩

/-- Audio clipping criterion (`if "clipping_ratio" in voice_quality`). -/
def clippingCritA : Option ℚ → CritResult
  | none => ⟨0, 0, [], [], []⟩
  | some c =>
    if c > 1/100 then ⟨5, 15, ["Audio clipping detected - reduce recording level"], [], []⟩
    else if c > 1/1000 then ⟨10, 15, [], ["Minor clipping detected"], []⟩
    else ⟨15, 15, [], [], ["No audio clipping"]⟩

/-- Audio harmonics-to-noise criterion
(`if "harmonics_to_noise_ratio" in voice_chars`). -/
def hnrCritA : Option ℚ → CritResult
  | none => ⟨0, 0, [], [], []⟩
  | some hnr =>
    if hnr < 5 then ⟨5, 20, ["Voice quality issues detected"], [], []⟩
    else if hnr < 15 then ⟨15, 20, [], ["Voice clarity could be improved"], []⟩
    else ⟨20, 20, [], [], ["Clear voice characteristics"]⟩

/-- The signal values `AudioAnalyzer._assess_training_suitability` reads
out of an analysis-result dictionary; a `none` models the corresponding
key being absent (e.g. because that sub-analysis returned an error
dictionary). -/
structure AudioSuitabilityInputs where
  duration : Option ℚ
  overall_quality_score : Option ℚ
  snr_db : Option ℚ
  clipping_ratio : Option ℚ
  harmonics_to_noise_ratio : Option ℚ
deriving Repr, DecidableEq

/-- The audio criteria, in source order. -/
def audioCriteria (i : AudioSuitabilityInputs) : List CritResult :=
  [durationCritA i.duration, qualityCritA i.overall_quality_score, snrCritA i.snr_db,
   clippingCritA i.clipping_ratio, hnrCritA i.harmonics_to_noise_ratio]

/-- Accumulated `score` of a criteria list. -/
def scoreSum (cs : List CritResult) : ℕ := (cs.map (·.pts)).sum

/-- Accumulated `max_score` of a criteria list. -/
def maxScoreSum (cs : List CritResult) : ℕ := (cs.map (·.maxPts)).sum

/-- Result dictionary of either `_assess_training_suitability`. -/
structure SuitabilityResult where
  overall_score : ℚ
  verdict : String
  issues : List String
  recommendations : List String
  strengths : List String
deriving Repr, DecidableEq

/-- Audio verdict chain (`if suitability["overall_score"] >= 80: ...`). -/
def audioVerdict (os : ℚ) : String :=
  if 80 ≤ os then "Excellent for voice training"
  else if 60 ≤ os then "Good for voice training"
  else if 40 ≤ os then "Acceptable for voice training"
  else "Poor quality - recommend re-recording"

/-- `AudioAnalyzer._assess_training_suitability`: accumulate the five
criteria, set `overall_score = (score / max_score) * 100` when
`max_score > 0` (and leave the initial 0 otherwise), then pick the
verdict. -/
def assess_training_suitability_audio (i : AudioSuitabilityInputs) : SuitabilityResult :=
  let cs := audioCriteria i
  let score := scoreSum cs
  let maxScore := maxScoreSum cs
  let os : ℚ := if 0 < maxScore then ((score : ℚ) / (maxScore : ℚ)) * 100 else 0
  { overall_score := os
    verdict := audioVerdict os
    issues := (cs.map (·.issues)).flatten
    recommendations := (cs.map (·.recommendations)).flatten
    strengths := (cs.map (·.strengths)).flatten }

/-- Video duration criterion. -/
def durationCritV : Option ℚ → CritResult
  | none => ⟨0, 0, [], [], []⟩
  | some d =>
    if d < 10 then ⟨5, 20, ["Video too short (minimum 10 seconds recommended)"], [], []⟩
    else if d < 30 then ⟨15, 20, [], ["Longer videos (30+ seconds) provide better training data"], []⟩
    else ⟨20, 20, [], [], ["Good video duration for training"]⟩

/-- Video audio-energy criterion (`if "mean_energy" in audio_features`). -/
def energyCritV : Option ℚ → CritResult
  | none => ⟨0, 0, [], [], []⟩
  | some e =>
    if e < 1/100 then ⟨5, 20, ["Audio level very low - may affect voice training"], [], []⟩
    else if e < 1/20 then ⟨15, 20, [], ["Audio could be louder for better voice training"], []⟩
    else ⟨20, 20, [], [], ["Good audio levels detected"]⟩

/-- Video face-detection criterion. -/
def faceCritV : Option ℚ → CritResult
  | none => ⟨0, 0, [], [], []⟩
  | some r =>
    if r < 3/10 then ⟨5, 20, ["Face not consistently visible - affects visual training"], [], []⟩
    else if r < 7/10 then ⟨15, 20, [], ["Face should be visible more consistently"], []⟩
    else ⟨20, 20, [], [], ["Face consistently visible throughout video"]⟩

/-- Video voice-activity criterion. -/
def voiceActivityCritV : Option ℚ → CritResult
  | none => ⟨0, 0, [], [], []⟩
  | some r =>
    if r < 3/10 then ⟨5, 20, ["Limited voice activity detected"], [], []⟩
    else if r < 6/10 then ⟨15, 20, [], ["More continuous speech would improve training"], []⟩
    else ⟨20, 20, [], [], ["Good voice activity throughout video"]⟩

/-- Video movement criterion.  The outer `Option` is presence of the
`movement_analysis` dictionary inside `visual_features` (it adds 20 to
`max_score` as soon as it is present, even when it is an error
dictionary); the inner `Option` is presence of its `average_movement`
key, which gates the points. -/
def movementCritV : Option (Option ℚ) → CritResult
  | none => ⟨0, 0, [], [], []⟩
  | some none => ⟨0, 20, [], [], []⟩
  | some (some m) =>
    if m < 1/1000 then ⟨10, 20, [], ["More natural movement would enhance persona character"], []⟩
    else ⟨20, 20, [], [], ["Natural movement patterns detected"]⟩

/-- The signal values `VideoAnalyzer._assess_training_suitability` reads
out of an analysis-result dictionary. -/
structure VideoSuitabilityInputs where
  duration : Option ℚ
  mean_energy : Option ℚ
  face_detection_rate : Option ℚ
  voice_activity_ratio : Option ℚ
  movement_analysis : Option (Option ℚ)
deriving Repr, DecidableEq

/-- The video criteria, in source order. -/
def videoCriteria (i : VideoSuitabilityInputs) : List CritResult :=
  [durationCritV i.duration, energyCritV i.mean_energy, faceCritV i.face_detection_rate,
   voiceActivityCritV i.voice_activity_ratio, movementCritV i.movement_analysis]

/-- Video verdict chain. -/
def videoVerdict (os : ℚ) : String :=
  if 80 ≤ os then "Excellent for training"
  else if 60 ≤ os then "Good for training"
  else if 40 ≤ os then "Acceptable for training"
  else "Poor quality - consider re-recording"

/-- `VideoAnalyzer._assess_training_suitability`:
`overall_score = min(100, (score / max_score) * 100)` when
`max_score > 0`. -/
def assess_training_suitability_video (i : VideoSuitabilityInputs) : SuitabilityResult :=
  let cs := videoCriteria i
  let score := scoreSum cs
  let maxScore := maxScoreSum cs
  let os : ℚ := if 0 < maxScore then min 100 (((score : ℚ) / (maxScore : ℚ)) * 100) else 0
  { overall_score := os
    verdict := videoVerdict os
    issues := (cs.map (·.issues)).flatten
    recommendations := (cs.map (·.recommendations)).flatten
    strengths := (cs.map (·.strengths)).flatten }

theorem durationCritA_le (o : Option ℚ) : (durationCritA o).pts ≤ (durationCritA o).maxPts := by
  rcases o with _ | d
  · decide
  · simp only [durationCritA]
    split
    · decide
    · split <;> decide

theorem qualityCritA_le (o : Option ℚ) : (qualityCritA o).pts ≤ (qualityCritA o).maxPts := by
  rcases o with _ | d
  · decide
  · simp only [qualityCritA]
    split
    · decide
    · split <;> decide

theorem snrCritA_le (o : Option ℚ) : (snrCritA o).pts ≤ (snrCritA o).maxPts := by
  rcases o with _ | d
  · decide
  · simp only [snrCritA]
    split
    · decide
    · split <;> decide

theorem clippingCritA_le (o : Option ℚ) : (clippingCritA o).pts ≤ (clippingCritA o).maxPts := by
  rcases o with _ | d
  · decide
  · simp only [clippingCritA]
    split
    · decide
    · split <;> decide

theorem hnrCritA_le (o : Option ℚ) : (hnrCritA o).pts ≤ (hnrCritA o).maxPts := by
  rcases o with _ | d
  · decide
  · simp only [hnrCritA]
    split
    · decide
    · split <;> decide

theorem durationCritV_le (o : Option ℚ) : (durationCritV o).pts ≤ (durationCritV o).maxPts := by
  rcases o with _ | d
  · decide
  · simp only [durationCritV]
    split
    · decide
    · split <;> decide

theorem energyCritV_le (o : Option ℚ) : (energyCritV o).pts ≤ (energyCritV o).maxPts := by
  rcases o with _ | d
  · decide
  · simp only [energyCritV]
    split
    · decide
    · split <;> decide

theorem faceCritV_le (o : Option ℚ) : (faceCritV o).pts ≤ (faceCritV o).maxPts := by
  rcases o with _ | d
  · decide
  · simp only [faceCritV]
    split
    · decide
    · split <;> decide

theorem voiceActivityCritV_le (o : Option ℚ) : (voiceActivityCritV o).pts ≤ (voiceActivityCritV o).maxPts := by
  rcases o with _ | d
  · decide
  · simp only [voiceActivityCritV]
    split
    · decide
    · split <;> decide

theorem movementCritV_le (o : Option (Option ℚ)) :
    (movementCritV o).pts ≤ (movementCritV o).maxPts := by
  rcases o with _ | (_ | m)
  · decide
  · decide
  · simp only [movementCritV]
    split <;> decide

/-- In the audio scorer, the accumulated score never exceeds the
accumulated maximum. -/
theorem scoreSum_le_maxScoreSum_audio (i : AudioSuitabilityInputs) :
    scoreSum (audioCriteria i) ≤ maxScoreSum (audioCriteria i) := by
  have h1 := durationCritA_le i.duration
  have h2 := qualityCritA_le i.overall_quality_score
  have h3 := snrCritA_le i.snr_db
  have h4 := clippingCritA_le i.clipping_ratio
  have h5 := hnrCritA_le i.harmonics_to_noise_ratio
  simp only [scoreSum, maxScoreSum, audioCriteria, List.map_cons, List.map_nil, List.sum_cons,
    List.sum_nil]
  omega

/-- In the video scorer, the accumulated score never exceeds the
accumulated maximum. -/
theorem scoreSum_le_maxScoreSum_video (i : VideoSuitabilityInputs) :
    scoreSum (videoCriteria i) ≤ maxScoreSum (videoCriteria i) := by
  have h1 := durationCritV_le i.duration
  have h2 := energyCritV_le i.mean_energy
  have h3 := faceCritV_le i.face_detection_rate
  have h4 := voiceActivityCritV_le i.voice_activity_ratio
  have h5 := movementCritV_le i.movement_analysis
  simp only [scoreSum, maxScoreSum, videoCriteria, List.map_cons, List.map_nil, List.sum_cons,
    List.sum_nil]
  omega

/-- Helper: the ratio score lies in the unit-scaled interval. -/
theorem ratio_score_bounds (s m : ℕ) (hsm : s ≤ m) (hm : 0 < m) :
    0 ≤ ((s : ℚ) / (m : ℚ)) * 100 ∧ ((s : ℚ) / (m : ℚ)) * 100 ≤ 100 := by
  have hm0 : (0 : ℚ) < (m : ℚ) := by exact_mod_cast hm
  have hs0 : (0 : ℚ) ≤ (s : ℚ) := by positivity
  have hdiv : (s : ℚ) / (m : ℚ) ≤ 1 := by
    rw [div_le_one hm0]; exact_mod_cast hsm
  constructor
  · positivity
  · nlinarith

/-- Threshold semantics of the audio verdict strings. -/
theorem audioVerdict_thresholds (os : ℚ) :
    ((audioVerdict os = "Excellent for voice training") ↔ 80 ≤ os)
    ∧ ((audioVerdict os = "Good for voice training") ↔ (60 ≤ os ∧ os < 80))
    ∧ ((audioVerdict os = "Acceptable for voice training") ↔ (40 ≤ os ∧ os < 60))
    ∧ ((audioVerdict os = "Poor quality - recommend re-recording") ↔ os < 40) := by
  unfold audioVerdict
  by_cases h80 : 80 ≤ os
  · simp only [if_pos h80]
    refine ⟨by simp [h80], ?_, ?_, ?_⟩ <;> constructor <;> intro h <;>
      first | (exfalso; revert h; decide) | linarith [h.2] | linarith
  · rw [if_neg h80]
    by_cases h60 : 60 ≤ os
    · simp only [if_pos h60]
      refine ⟨?_, by simp [h60, lt_of_not_le h80], ?_, ?_⟩ <;> constructor <;> intro h <;>
        first | (exfalso; revert h; decide) | linarith [h.2] | linarith
    · rw [if_neg h60]
      by_cases h40 : 40 ≤ os
      · simp only [if_pos h40]
        refine ⟨?_, ?_, by simp [h40, lt_of_not_le h60], ?_⟩ <;> constructor <;> intro h <;>
          first | (exfalso; revert h; decide) | linarith [h.1] | linarith
      · rw [if_neg h40]
        refine ⟨?_, ?_, ?_, by simp [lt_of_not_le h40]⟩ <;> constructor <;> intro h <;>
          first | (exfalso; revert h; decide) | linarith [h.1] | linarith

/-- Threshold semantics of the video verdict strings. -/
theorem videoVerdict_thresholds (os : ℚ) :
    ((videoVerdict os = "Excellent for training") ↔ 80 ≤ os)
    ∧ ((videoVerdict os = "Good for training") ↔ (60 ≤ os ∧ os < 80))
    ∧ ((videoVerdict os = "Acceptable for training") ↔ (40 ≤ os ∧ os < 60))
    ∧ ((videoVerdict os = "Poor quality - consider re-recording") ↔ os < 40) := by
  unfold videoVerdict
  by_cases h80 : 80 ≤ os
  · simp only [if_pos h80]
    refine ⟨by simp [h80], ?_, ?_, ?_⟩ <;> constructor <;> intro h <;>
      first | (exfalso; revert h; decide) | linarith [h.2] | linarith
  · rw [if_neg h80]
    by_cases h60 : 60 ≤ os
    · simp only [if_pos h60]
      refine ⟨?_, by simp [h60, lt_of_not_le h80], ?_, ?_⟩ <;> constructor <;> intro h <;>
        first | (exfalso; revert h; decide) | linarith [h.2] | linarith
    · rw [if_neg h60]
      by_cases h40 : 40 ≤ os
      · simp only [if_pos h40]
        refine ⟨?_, ?_, by simp [h40, lt_of_not_le h60], ?_⟩ <;> constructor <;> intro h <;>
          first | (exfalso; revert h; decide) | linarith [h.1] | linarith
      · rw [if_neg h40]
        refine ⟨?_, ?_, ?_, by simp [lt_of_not_le h40]⟩ <;> constructor <;> intro h <;>
          first | (exfalso; revert h; decide) | linarith [h.1] | linarith

/-- C5: counterexample to the claimed rounding.  On an analysis whose
basic-info and voice-characteristics extraction failed but whose
voice-quality block succeeded (quality 0.7, SNR 5 dB, clipping ratio
0.02), the code accumulates score 35 of max 60 and stores the exact
ratio 175/3 = 58.33…, whereas the claimed formula
`round(100*score/maxScore)` gives the integer 58; the two differ. -/
theorem scorer_not_rounded_cx :
    (assess_training_suitability_audio
        ⟨none, some (7/10), some 5, some (1/50), none⟩).overall_score = 175/3
    ∧ scoreSum (audioCriteria ⟨none, some (7/10), some 5, some (1/50), none⟩) = 35
    ∧ maxScoreSum (audioCriteria ⟨none, some (7/10), some 5, some (1/50), none⟩) = 60
    ∧ round ((100 * (35 : ℚ)) / 60) = 58
    ∧ ((175 : ℚ)/3) ≠ ((58 : ℤ) : ℚ) := by
  refine ⟨by with_unfolding_all decide, by with_unfolding_all decide,
    by with_unfolding_all decide, ?_, by norm_num⟩
  norm_num [round_eq]

/-- C5 (amended): for both analyzers, the suitability scorer sets
`overall_score` to the exact, unrounded ratio `100*score/maxScore`
(video additionally clamps at 100, a no-op) with 0 when no criteria are
present, the value always lies in [0, 100], and the verdict follows the
fixed 80/60/40 thresholds shared across the modalities.  Where the spec
claimed `round(...)`, the code stores the unrounded rational. -/
theorem scorer_exact_ratio_bounds_verdicts :
    ∀ (a : AudioSuitabilityInputs) (v : VideoSuitabilityInputs),
      ((assess_training_suitability_audio a).overall_score =
          (if 0 < maxScoreSum (audioCriteria a) then
            ((scoreSum (audioCriteria a) : ℚ) / (maxScoreSum (audioCriteria a) : ℚ)) * 100
          else 0)
        ∧ 0 ≤ (assess_training_suitability_audio a).overall_score
        ∧ (assess_training_suitability_audio a).overall_score ≤ 100
        ∧ (((assess_training_suitability_audio a).verdict = "Excellent for voice training") ↔
            80 ≤ (assess_training_suitability_audio a).overall_score)
        ∧ (((assess_training_suitability_audio a).verdict = "Good for voice training") ↔
            (60 ≤ (assess_training_suitability_audio a).overall_score
              ∧ (assess_training_suitability_audio a).overall_score < 80))
        ∧ (((assess_training_suitability_audio a).verdict = "Acceptable for voice training") ↔
            (40 ≤ (assess_training_suitability_audio a).overall_score
              ∧ (assess_training_suitability_audio a).overall_score < 60))
        ∧ (((assess_training_suitability_audio a).verdict = "Poor quality - recommend re-recording") ↔
            (assess_training_suitability_audio a).overall_score < 40))
      ∧ ((assess_training_suitability_video v).overall_score =
          (if 0 < maxScoreSum (videoCriteria v) then
            min 100 (((scoreSum (videoCriteria v) : ℚ) / (maxScoreSum (videoCriteria v) : ℚ)) * 100)
          else 0)
        ∧ 0 ≤ (assess_training_suitability_video v).overall_score
        ∧ (assess_training_suitability_video v).overall_score ≤ 100
        ∧ (((assess_training_suitability_video v).verdict = "Excellent for training") ↔
            80 ≤ (assess_training_suitability_video v).overall_score)
        ∧ (((assess_training_suitability_video v).verdict = "Good for training") ↔
            (60 ≤ (assess_training_suitability_video v).overall_score
              ∧ (assess_training_suitability_video v).overall_score < 80))
        ∧ (((assess_training_suitability_video v).verdict = "Acceptable for training") ↔
            (40 ≤ (assess_training_suitability_video v).overall_score
              ∧ (assess_training_suitability_video v).overall_score < 60))
        ∧ (((assess_training_suitability_video v).verdict = "Poor quality - consider re-recording") ↔
            (assess_training_suitability_video v).overall_score < 40)) := by
  intro a v
  constructor
  · have hsm := scoreSum_le_maxScoreSum_audio a
    have hos : (assess_training_suitability_audio a).overall_score =
        (if 0 < maxScoreSum (audioCriteria a) then
          ((scoreSum (audioCriteria a) : ℚ) / (maxScoreSum (audioCriteria a) : ℚ)) * 100
        else 0) := rfl
    have hv : (assess_training_suitability_audio a).verdict =
        audioVerdict (assess_training_suitability_audio a).overall_score := rfl
    have hb : 0 ≤ (assess_training_suitability_audio a).overall_score
        ∧ (assess_training_suitability_audio a).overall_score ≤ 100 := by
      rw [hos]; split
      · exact ratio_score_bounds _ _ hsm (by assumption)
      · norm_num
    have ht := audioVerdict_thresholds (assess_training_suitability_audio a).overall_score
    rw [hv]
    exact ⟨hos, hb.1, hb.2, ht.1, ht.2.1, ht.2.2.1, ht.2.2.2⟩
  · have hsm := scoreSum_le_maxScoreSum_video v
    have hos : (assess_training_suitability_video v).overall_score =
        (if 0 < maxScoreSum (videoCriteria v) then
          min 100 (((scoreSum (videoCriteria v) : ℚ) / (maxScoreSum (videoCriteria v) : ℚ)) * 100)
        else 0) := rfl
    have hv : (assess_training_suitability_video v).verdict =
        videoVerdict (assess_training_suitability_video v).overall_score := rfl
    have hb : 0 ≤ (assess_training_suitability_video v).overall_score
        ∧ (assess_training_suitability_video v).overall_score ≤ 100 := by
      rw [hos]; split
      · have h := ratio_score_bounds (scoreSum (videoCriteria v)) (maxScoreSum (videoCriteria v))
          hsm (by assumption)
        exact ⟨le_min (by norm_num) h.1, min_le_left _ _⟩
      · norm_num
    have ht := videoVerdict_thresholds (assess_training_suitability_video v).overall_score
    rw [hv]
    exact ⟨hos, hb.1, hb.2, ht.1, ht.2.1, ht.2.2.1, ht.2.2.2⟩

/-!
## Feature aggregator

`MultimodalTrainingPipeline._extract_advanced_voice_features` and
`._extract_advanced_visual_features` reduce the per-file analysis
dictionaries of one modality to one combined-features dictionary.  The
per-file dictionaries are modelled with `Option` leaves (`none` = key
absent, e.g. because that signal group was an error dictionary).

Two numeric caveats, visible in the field docstrings: the source stores
`np.std(xs)` and `1.0/(np.std(xs)+1e-10)` for a few fields; a square
root is irrational, so those fields hold the variance `npVar xs` in
place of `np.std xs`.  Which records contribute to which statistic —
the content of every claim about this code — is unchanged by that
reparameterization.
-/

/-- The `spectral_features` dictionary of one analysis, restricted to
the keys the aggregator reads (each read with `.get(key, default)`). -/
structure SpectralDict where
  spectral_centroid_mean : Option ℚ
  spectral_rolloff_mean : Option ℚ
  mfcc_means : Option (List ℚ)
deriving Repr, DecidableEq

/-- The `prosodic_features` dictionary keys the aggregator reads. -/
structure ProsodicDict where
  speech_rate : Option ℚ
  rhythm_regularity : Option ℚ
  pitch_range : Option ℚ
  tempo : Option ℚ
deriving Repr, DecidableEq

/-- The `emotional_indicators` dictionary keys the aggregator reads. -/
structure EmotionalDict where
  energy_level : Option ℚ
  energy_variation : Option ℚ
  voice_brightness : Option ℚ
deriving Repr, DecidableEq

/-- The `voice_quality` dictionary key the aggregator reads. -/
structure QualityDict where
  overall_quality_score : Option ℚ
deriving Repr, DecidableEq

/-- The `training_suitability` dictionary as consumed by the
orchestrator (`suitability.get("overall_score", 0)`). -/
structure SuitabilityLight where
  overall_score : ℚ
deriving Repr, DecidableEq

/-- One audio AnalysisRecord as a dictionary: each top-level signal
group may be absent (`none`). -/
structure AudioRecord where
  spectral_features : Option SpectralDict
  prosodic_features : Option ProsodicDict
  emotional_indicators : Option EmotionalDict
  voice_quality : Option QualityDict
  training_suitability : Option SuitabilityLight
deriving Repr, DecidableEq

/-- The collection loop `for analysis in audio_analyses: if
"spectral_features" in analysis: spectral_features.append(...)`. -/
def spectralList (l : List AudioRecord) : List SpectralDict :=
  l.filterMap (·.spectral_features)

/-- Collection of the `prosodic_features` dictionaries. -/
def prosodicList (l : List AudioRecord) : List ProsodicDict :=
  l.filterMap (·.prosodic_features)

/-- Collection of the `emotional_indicators` dictionaries. -/
def emotionalList (l : List AudioRecord) : List EmotionalDict :=
  l.filterMap (·.emotional_indicators)

/-- Collection of `analysis["voice_quality"].get("overall_quality_score", 0)`
over records whose `voice_quality` key is present. -/
def qualityScores (l : List AudioRecord) : List ℚ :=
  l.filterMap (fun a => a.voice_quality.map (fun q => q.overall_quality_score.getD 0))

/-- The `voice_characteristics` section.  `pitch_variance` holds
`npVar` where the source holds `np.std` (see section comment).
`voice_timbre` indexes `mfcc_means` (default `[0]*13`) at 0..12; the
model uses `getD i 0` where the source would raise on a short list. -/
structure VoiceCharacteristics where
  average_pitch : ℚ
  pitch_variance : ℚ
  spectral_brightness : ℚ
  voice_timbre : List ℚ
deriving Repr, DecidableEq

/-- Computation of the `voice_characteristics` section from the
collected spectral dictionaries; missing leaves contribute the
`.get` defaults (0 and `[0]*13`). -/
def voiceCharacteristicsOf (sf : List SpectralDict) : VoiceCharacteristics :=
  { average_pitch := npMean (sf.map (fun f => f.spectral_centroid_mean.getD 0))
    pitch_variance := npVar (sf.map (fun f => f.spectral_centroid_mean.getD 0))
    spectral_brightness := npMean (sf.map (fun f => f.spectral_rolloff_mean.getD 0))
    voice_timbre := (List.range 13).map (fun i =>
      npMean (sf.map (fun f => (f.mfcc_means.getD (List.replicate 13 0)).getD i 0))) }

/-- The `prosodic_patterns` section; `tempo_consistency` holds
`1/(npVar + 1e-10)` where the source holds `1/(np.std + 1e-10)`. -/
structure ProsodicPatterns where
  speaking_rate : ℚ
  rhythm_regularity : ℚ
  pitch_range : ℚ
  tempo_consistency : ℚ
deriving Repr, DecidableEq

/-- Computation of the `prosodic_patterns` section; missing leaves
contribute the `.get` defaults (0, and 120 for `tempo`). -/
def prosodicPatternsOf (pf : List ProsodicDict) : ProsodicPatterns :=
  { speaking_rate := npMean (pf.map (fun f => f.speech_rate.getD 0))
    rhythm_regularity := npMean (pf.map (fun f => f.rhythm_regularity.getD 0))
    pitch_range := npMean (pf.map (fun f => f.pitch_range.getD 0))
    tempo_consistency := 1 / (npVar (pf.map (fun f => f.tempo.getD 120)) + 1 / 10 ^ 10) }

/-- The `emotional_profile` section. -/
structure EmotionalProfile where
  energy_level : ℚ
  expressiveness : ℚ
  voice_confidence : ℚ
deriving Repr, DecidableEq

/-- Computation of the `emotional_profile` section; missing leaves
contribute the `.get` defaults (0.5, and 1000 for brightness). -/
def emotionalProfileOf (ef : List EmotionalDict) : EmotionalProfile :=
  { energy_level := npMean (ef.map (fun f => f.energy_level.getD (1/2)))
    expressiveness := npMean (ef.map (fun f => f.energy_variation.getD (1/2)))
    voice_confidence := npMean (ef.map (fun f => f.voice_brightness.getD 1000)) / 1000 }

/-- The `quality_metrics` section; `quality_consistency` holds
`1/(npVar + 1e-10)` where the source holds `1/(np.std + 1e-10)`. -/
structure QualityMetrics where
  average_quality : ℚ
  quality_consistency : ℚ
  minimum_quality : ℚ
  maximum_quality : ℚ
deriving Repr, DecidableEq

/-- Computation of the `quality_metrics` section. -/
def qualityMetricsOf (qs : List ℚ) : QualityMetrics :=
  { average_quality := npMean qs
    quality_consistency := 1 / (npVar qs + 1 / 10 ^ 10)
    minimum_quality := npMin qs
    maximum_quality := npMax qs }

/-- Content of `advanced_voice_features.json`: a section is `none`
exactly when the source leaves the initial empty dictionary in place
(its collected list was empty); `total_audio_files` is the
`training_metadata` count. -/
structure VoiceCombinedFeatures where
  voice_characteristics : Option VoiceCharacteristics
  prosodic_patterns : Option ProsodicPatterns
  emotional_profile : Option EmotionalProfile
  quality_metrics : Option QualityMetrics
  total_audio_files : ℕ
deriving Repr, DecidableEq

/-- `MultimodalTrainingPipeline._extract_advanced_voice_features`
(aggregation part): collect the four per-group lists, then fill each
section only when its list is nonempty. -/
def extract_advanced_voice_features (l : List AudioRecord) : VoiceCombinedFeatures :=
  { voice_characteristics :=
      if spectralList l = [] then none else some (voiceCharacteristicsOf (spectralList l))
    prosodic_patterns :=
      if prosodicList l = [] then none else some (prosodicPatternsOf (prosodicList l))
    emotional_profile :=
      if emotionalList l = [] then none else some (emotionalProfileOf (emotionalList l))
    quality_metrics :=
      if qualityScores l = [] then none else some (qualityMetricsOf (qualityScores l))
    total_audio_files := l.length }

/-- The `movement_analysis` value inside `visual_features` (always a
dictionary; an error dictionary has no `average_movement` key). -/
structure MovementDict where
  average_movement : Option ℚ
deriving Repr, DecidableEq

/-- The `visual_features` dictionary keys the visual aggregator reads. -/
structure VisualDict where
  face_detection_rate : Option ℚ
  movement_analysis : Option MovementDict
deriving Repr, DecidableEq

/-- The `personality_indicators` dictionary keys the visual aggregator
reads. -/
structure PersonalityDict where
  energy_level : Option ℚ
  expressiveness : Option ℚ
deriving Repr, DecidableEq

/-- One video AnalysisRecord as a dictionary. -/
structure VideoRecord where
  visual_features : Option VisualDict
  personality_indicators : Option PersonalityDict
  training_suitability : Option SuitabilityLight
deriving Repr, DecidableEq

/-- Collection of `face_detection_rate` values: both the
`visual_features` group and the leaf key must be present. -/
def faceRates (l : List VideoRecord) : List ℚ :=
  l.filterMap (fun a => a.visual_features.bind (·.face_detection_rate))

/-- Collection of `movement_analysis` dictionaries (`isinstance(...,
dict)` always holds for a present key). -/
def movementPatterns (l : List VideoRecord) : List MovementDict :=
  l.filterMap (fun a => a.visual_features.bind (·.movement_analysis))

/-- Collection of `personality_indicators` dictionaries. -/
def personalityList (l : List VideoRecord) : List PersonalityDict :=
  l.filterMap (·.personality_indicators)

/-- The `visual_characteristics` section; `visibility_consistency`
holds `1/(npVar + 1e-10)` where the source holds `1/(np.std + 1e-10)`. -/
structure VisualCharacteristics where
  average_visibility : ℚ
  visibility_consistency : ℚ
  camera_presence : String
deriving Repr, DecidableEq

/-- Computation of the `visual_characteristics` section. -/
def visualCharacteristicsOf (rates : List ℚ) : VisualCharacteristics :=
  { average_visibility := npMean rates
    visibility_consistency := 1 / (npVar rates + 1 / 10 ^ 10)
    camera_presence :=
      if npMean rates > 7/10 then "high" else if npMean rates > 4/10 then "medium" else "low" }

/-- The `behavioral_patterns` section. -/
structure BehavioralPatterns where
  activity_level : ℚ
  movement_consistency : ℚ
  expressiveness : String
deriving Repr, DecidableEq

/-- Computation of the `behavioral_patterns` section from the
leaf-filtered `average_movement` values. -/
def behavioralPatternsOf (ms : List ℚ) : BehavioralPatterns :=
  { activity_level := npMean ms
    movement_consistency := 1 / (npVar ms + 1 / 10 ^ 10)
    expressiveness :=
      if npMean ms > 1/100 then "high" else if npMean ms > 1/200 then "medium" else "low" }

/-- The aggregated `personality_indicators` section. -/
structure PersonalityIndicatorsAgg where
  energy_profile : ℚ
  expressiveness_profile : ℚ
  visual_confidence : ℚ
deriving Repr, DecidableEq

/-- Content of `advanced_visual_features.json`. -/
structure VisualCombinedFeatures where
  visual_characteristics : Option VisualCharacteristics
  behavioral_patterns : Option BehavioralPatterns
  personality_indicators : Option PersonalityIndicatorsAgg
  total_video_files : ℕ
deriving Repr, DecidableEq

/-- `MultimodalTrainingPipeline._extract_advanced_visual_features`
(aggregation part).  Unlike the voice aggregator, the leaf keys
(`average_movement`, `energy_level`, `expressiveness`) are filtered
per record, and absent leaves fall back to 0.5 / 0 only when the whole
filtered list is empty. -/
def extract_advanced_visual_features (l : List VideoRecord) : VisualCombinedFeatures :=
  let rates := faceRates l
  let patterns := movementPatterns l
  let avgMovements := patterns.filterMap (·.average_movement)
  let persons := personalityList l
  let energyLevels := persons.filterMap (·.energy_level)
  let exprScores := persons.filterMap (·.expressiveness)
  { visual_characteristics :=
      if rates = [] then none else some (visualCharacteristicsOf rates)
    behavioral_patterns :=
      if patterns = [] then none
      else if avgMovements = [] then none else some (behavioralPatternsOf avgMovements)
    personality_indicators :=
      if persons = [] then none
      else if energyLevels = [] ∧ exprScores = [] then none
      else some
        { energy_profile := if energyLevels = [] then 1/2 else npMean energyLevels
          expressiveness_profile := if exprScores = [] then 1/2 else npMean exprScores
          visual_confidence := if rates = [] then 0 else npMean rates }
    total_video_files := l.length }

/-- An AudioRecord with every signal group absent. -/
def emptyAudioRecord : AudioRecord := ⟨none, none, none, none, none⟩

/-- C7: counterexample.  Aggregating a record whose
`spectral_features` group is present but lacks the
`spectral_centroid_mean` leaf together with one that has it at 100
yields `average_pitch = mean(100, 0) = 50`: the leafless record
contributes the substitute default 0 instead of being excluded, so
the statistic is not the mean over the records that contain the
sub-field (which would be 100). -/
theorem aggregator_substitutes_defaults_cx :
    ((extract_advanced_voice_features
        [⟨some ⟨some 100, none, none⟩, none, none, none, none⟩,
         ⟨some ⟨none, none, none⟩, none, none, none, none⟩]).voice_characteristics.map
      (·.average_pitch)) = some 50
    ∧ npMean [100] = 100
    ∧ (50 : ℚ) ≠ 100 := by
  refine ⟨by with_unfolding_all decide, by with_unfolding_all decide, by norm_num⟩

/-- C7 (amended): a record missing a whole signal group is excluded
from that group section alone, still counted in the summary metadata;
but within a present group the voice aggregator substitutes `.get`
defaults for missing leaves (shown for `average_pitch`: the mean runs
over every record having the `spectral_features` group, with default 0),
while the visual aggregator additionally filters at leaf level (shown
for `average_visibility`). -/
theorem aggregator_group_exclusion_leaf_defaults :
    ∀ (pre post : List AudioRecord) (r : AudioRecord),
      ((extract_advanced_voice_features (pre ++ r :: post)).total_audio_files
          = pre.length + post.length + 1)
      ∧ (r.spectral_features = none →
          (extract_advanced_voice_features (pre ++ r :: post)).voice_characteristics
            = (extract_advanced_voice_features (pre ++ post)).voice_characteristics)
      ∧ (r.prosodic_features = none →
          (extract_advanced_voice_features (pre ++ r :: post)).prosodic_patterns
            = (extract_advanced_voice_features (pre ++ post)).prosodic_patterns)
      ∧ (r.emotional_indicators = none →
          (extract_advanced_voice_features (pre ++ r :: post)).emotional_profile
            = (extract_advanced_voice_features (pre ++ post)).emotional_profile)
      ∧ (r.voice_quality = none →
          (extract_advanced_voice_features (pre ++ r :: post)).quality_metrics
            = (extract_advanced_voice_features (pre ++ post)).quality_metrics)
      ∧ (∀ l : List AudioRecord,
          ((extract_advanced_voice_features l).voice_characteristics.map (·.average_pitch))
            = if spectralList l = [] then none
              else some (npMean ((spectralList l).map (fun f => f.spectral_centroid_mean.getD 0))))
      ∧ (∀ l : List VideoRecord,
          ((extract_advanced_visual_features l).visual_characteristics.map (·.average_visibility))
            = if faceRates l = [] then none else some (npMean (faceRates l))) := by
  intro pre post r
  refine ⟨?_, ?_, ?_, ?_, ?_, ?_, ?_⟩
  · simp [extract_advanced_voice_features]
    omega
  · intro h
    have : spectralList (pre ++ r :: post) = spectralList (pre ++ post) := by
      simp [spectralList, List.filterMap_append, h]
    simp [extract_advanced_voice_features, this]
  · intro h
    have : prosodicList (pre ++ r :: post) = prosodicList (pre ++ post) := by
      simp [prosodicList, List.filterMap_append, h]
    simp [extract_advanced_voice_features, this]
  · intro h
    have : emotionalList (pre ++ r :: post) = emotionalList (pre ++ post) := by
      simp [emotionalList, List.filterMap_append, h]
    simp [extract_advanced_voice_features, this]
  · intro h
    have : qualityScores (pre ++ r :: post) = qualityScores (pre ++ post) := by
      simp [qualityScores, List.filterMap_append, h]
    simp [extract_advanced_voice_features, this]
  · intro l
    by_cases h : spectralList l = [] <;>
      simp [extract_advanced_voice_features, h, voiceCharacteristicsOf]
  · intro l
    by_cases h : faceRates l = [] <;>
      simp [extract_advanced_visual_features, h, visualCharacteristicsOf]

/-- C7: witness instantiating the amended theorem at a concrete record
missing every group. -/
theorem aggregator_group_exclusion_witness :
    emptyAudioRecord.spectral_features = none
    ∧ (extract_advanced_voice_features ([] ++ emptyAudioRecord :: [])).voice_characteristics
        = (extract_advanced_voice_features ([] ++ [])).voice_characteristics :=
  ⟨rfl, (aggregator_group_exclusion_leaf_defaults [] [] emptyAudioRecord).2.1 rfl⟩

/-!
## Per-file analyzers: control skeleton

`AudioAnalyzer.analyze_audio` and `VideoAnalyzer.analyze_video` wrap
their stage extractors in one try/except.  Every stage extractor has
its own internal try/except and returns an error dictionary instead of
raising, so the only raising points are the capability check, the
file-existence check and `librosa.load`; an `Except String`-valued
environment supplies each stage outcome.  Progress callbacks are
modelled as total functions: the event list records the `(progress,
message)` calls that would be made when a callback is supplied. -/

/-- Content of a successful `_extract_basic_info` (audio) dictionary,
restricted to the field downstream consumers read. -/
structure BasicInfoA where
  duration : ℚ
deriving Repr, DecidableEq

/-- Content of a successful `_assess_voice_quality` dictionary,
restricted to the fields downstream consumers read. -/
structure VoiceQualityA where
  overall_quality_score : ℚ
  snr_db : ℚ
  clipping_ratio : ℚ
deriving Repr, DecidableEq

/-- Content of a successful `_extract_voice_characteristics`
dictionary, restricted to the field downstream consumers read. -/
structure VoiceCharsA where
  harmonics_to_noise_ratio : ℚ
deriving Repr, DecidableEq

/-- Environment for one `analyze_audio` call: capability flag, file
existence, the `librosa.load` outcome, and each stage extractor
outcome (`Except.error` models the error dictionary that stage
returned, whose keys are then absent downstream). -/
structure AnalyzeAudioEnv where
  path : String
  librosaAvailable : Bool
  fileExists : Bool
  load : Except String Unit
  basic_info : Except String BasicInfoA
  spectral : Except String SpectralDict
  prosodic : Except String ProsodicDict
  voice_characteristics : Except String VoiceCharsA
  emotional : Except String EmotionalDict
  voice_quality : Except String VoiceQualityA
deriving Repr

/-- The `results` dictionary of a completed `analyze_audio` run. -/
structure AudioAnalysisResults where
  basic_info : Except String BasicInfoA
  spectral_features : Except String SpectralDict
  prosodic_features : Except String ProsodicDict
  voice_characteristics : Except String VoiceCharsA
  emotional_indicators : Except String EmotionalDict
  voice_quality : Except String VoiceQualityA
  training_suitability : SuitabilityResult
deriving Repr

/-- `AudioAnalyzer.analyze_audio`: capability check (error dictionary
returned with no callback), existence check and load (exceptions caught
into the error dictionary, with one `(-1, ...)` callback), then the
stages in order, each preceded by its progress callback, ending with
the suitability assessment over the keys present. -/
def analyze_audio (env : AnalyzeAudioEnv) (cb : Bool) :
    Except String AudioAnalysisResults × List (Int × String) :=
  if env.librosaAvailable = false then
    (Except.error "Audio analysis libraries not available", [])
  else if env.fileExists = false then
    let msg := "Audio file not found: " ++ env.path
    (Except.error msg, if cb then [(-1, "Analysis failed: " ++ msg)] else [])
  else
    match env.load with
    | Except.error e =>
      (Except.error e,
        if cb then [(10, "Loading audio file..."), (-1, "Analysis failed: " ++ e)] else [])
    | Except.ok _ =>
      let suit := assess_training_suitability_audio
        { duration := env.basic_info.toOption.map (·.duration)
          overall_quality_score := env.voice_quality.toOption.map (·.overall_quality_score)
          snr_db := env.voice_quality.toOption.map (·.snr_db)
          clipping_ratio := env.voice_quality.toOption.map (·.clipping_ratio)
          harmonics_to_noise_ratio :=
            env.voice_characteristics.toOption.map (·.harmonics_to_noise_ratio) }
      (Except.ok
        { basic_info := env.basic_info
          spectral_features := env.spectral
          prosodic_features := env.prosodic
          voice_characteristics := env.voice_characteristics
          emotional_indicators := env.emotional
          voice_quality := env.voice_quality
          training_suitability := suit },
        if cb then
          [(10, "Loading audio file..."), (20, "Extracting basic information..."),
           (35, "Analyzing spectral features..."), (50, "Analyzing prosodic features..."),
           (65, "Analyzing voice characteristics..."), (80, "Analyzing emotional indicators..."),
           (90, "Assessing voice quality..."), (95, "Assessing training suitability..."),
           (100, "Audio analysis completed!")]
        else [])

/-- Content of a successful `_extract_basic_info` (video) dictionary. -/
structure BasicInfoV where
  duration : ℚ
deriving Repr, DecidableEq

/-- Content of a successful `_analyze_audio_features` dictionary,
restricted to the fields downstream consumers read. -/
structure AudioFeaturesV where
  mean_energy : ℚ
  tempo : ℚ
  voice_activity_ratio : ℚ
deriving Repr, DecidableEq

/-- Content of a successful `_analyze_visual_features` dictionary,
restricted to the fields downstream consumers read.  A successful
dictionary always carries the `movement_analysis` key; its value may
itself be an error dictionary, hence the `Option` leaf inside. -/
structure VisualFeaturesV where
  face_detection_rate : ℚ
  average_face_confidence : ℚ
  movement_analysis : MovementDict
deriving Repr, DecidableEq

/-- The `personality_indicators` dictionary produced by
`_extract_personality_indicators` (keys are conditional). -/
structure PersonalityIndicatorsV where
  energy_level : Option ℚ
  speaking_pace : Option String
  visual_confidence : Option ℚ
  expressiveness : Option ℚ
  engagement_duration : Option ℚ
deriving Repr, DecidableEq

/-- `VideoAnalyzer._extract_personality_indicators`: each indicator is
set only when its source keys are present. -/
def extract_personality_indicators_v (basic : Except String BasicInfoV)
    (audio : Option (Except String AudioFeaturesV))
    (visual : Except String VisualFeaturesV) : PersonalityIndicatorsV :=
  let audioOk : Option AudioFeaturesV := audio.bind Except.toOption
  let visualOk : Option VisualFeaturesV := visual.toOption
  { energy_level := audioOk.map (fun a => min 1 (a.mean_energy * 10))
    speaking_pace := audioOk.map (fun a =>
      if a.tempo < 100 then "slow" else if a.tempo > 150 then "fast" else "moderate")
    visual_confidence := visualOk.map (·.average_face_confidence)
    expressiveness := visualOk.bind (fun v =>
      v.movement_analysis.average_movement.map (fun m => min 1 (m * 100)))
    engagement_duration := basic.toOption.map (fun b => min 1 (b.duration / 60)) }

/-- Environment for one `analyze_video` call.  `audio_path = none`
models `_extract_audio` returning `None` (no embedded audio track, or
audio libraries unavailable); every stage extractor catches its own
exceptions, so only the file-existence check can raise.
`visualFrameEvents` are the nonnegative progress values the visual
frame loop reports between 40 and 80. -/
structure AnalyzeVideoEnv where
  path : String
  fileExists : Bool
  basic_info : Except String BasicInfoV
  audio_path : Option Unit
  audio_features : Except String AudioFeaturesV
  visual : Except String VisualFeaturesV
  visualFrameEvents : List ℕ
deriving Repr

/-- The `results` dictionary of a completed `analyze_video` run.
`audio_features = none` models the initial `{}` left untouched when no
audio track was extracted; `some (Except.error e)` models the error
dictionary returned by a failed `_analyze_audio_features`. -/
structure VideoAnalysisResults where
  basic_info : Except String BasicInfoV
  audio_features : Option (Except String AudioFeaturesV)
  visual_features : Except String VisualFeaturesV
  personality_indicators : PersonalityIndicatorsV
  training_suitability : SuitabilityResult
deriving Repr

/-- The suitability inputs `VideoAnalyzer._assess_training_suitability`
reads from a results dictionary. -/
def videoSuitabilityInputsOf (basic : Except String BasicInfoV)
    (audio : Option (Except String AudioFeaturesV))
    (visual : Except String VisualFeaturesV) : VideoSuitabilityInputs :=
  let audioOk : Option AudioFeaturesV := audio.bind Except.toOption
  { duration := basic.toOption.map (·.duration)
    mean_energy := audioOk.map (·.mean_energy)
    face_detection_rate := visual.toOption.map (·.face_detection_rate)
    voice_activity_ratio := audioOk.map (·.voice_activity_ratio)
    movement_analysis := visual.toOption.map (fun v => v.movement_analysis.average_movement) }

/-- `VideoAnalyzer.analyze_video`: existence check (exception caught
into the error dictionary with one `(-1, ...)` callback), basic info,
audio extraction (when `_extract_audio` returns `None` the
`audio_features` key keeps its initialized empty dictionary, modelled
`none`), visual analysis with its frame-loop progress events,
personality indicators, suitability. -/
def analyze_video (env : AnalyzeVideoEnv) (cb : Bool) :
    Except String VideoAnalysisResults × List (Int × String) :=
  if env.fileExists = false then
    let msg := "Video file not found: " ++ env.path
    (Except.error msg, if cb then [(-1, "Analysis failed: " ++ msg)] else [])
  else
    let audioField : Option (Except String AudioFeaturesV) :=
      env.audio_path.map (fun _ => env.audio_features)
    (Except.ok
      { basic_info := env.basic_info
        audio_features := audioField
        visual_features := env.visual
        personality_indicators :=
          extract_personality_indicators_v env.basic_info audioField env.visual
        training_suitability :=
          assess_training_suitability_video
            (videoSuitabilityInputsOf env.basic_info audioField env.visual) },
      if cb then
        [((10 : Int), "Extracting basic video information..."), (20, "Extracting audio track..."),
         (40, "Analyzing visual content...")]
        ++ env.visualFrameEvents.map (fun p => (Int.ofNat p, "Analyzing frame..."))
        ++ [(80, "Extracting personality indicators..."), (90, "Assessing training suitability..."),
            (100, "Video analysis completed!")]
      else [])

/-- Concrete environment: audio analysis libraries unavailable. -/
def audioEnvUnavailable : AnalyzeAudioEnv :=
  { path := "clip.wav", librosaAvailable := false, fileExists := true,
    load := Except.ok (), basic_info := Except.error "x", spectral := Except.error "x",
    prosodic := Except.error "x", voice_characteristics := Except.error "x",
    emotional := Except.error "x", voice_quality := Except.error "x" }

/-- C4: counterexample.  With the analysis libraries unavailable and a
progress callback supplied, `analyze_audio` returns the error
dictionary but never invokes the callback: no `(-1, message)` call is
made, contradicting the claimed exactly-once `-1` emission on every
failure. -/
theorem analyzer_failure_without_callback_cx :
    (analyze_audio audioEnvUnavailable true).1
        = Except.error "Audio analysis libraries not available"
    ∧ (analyze_audio audioEnvUnavailable true).2 = []
    ∧ ((analyze_audio audioEnvUnavailable true).2.countP (fun e => decide (e.1 < 0))) = 0 :=
  ⟨rfl, rfl, rfl⟩

/-- C4 (amended): both analyzers are total: the result is either a full
record or an error dictionary carrying the failure message, and with a
callback supplied the `(-1, ...)` call is made exactly once on each
exception failure and never on success; but the library-unavailable
branch of `analyze_audio` returns its error dictionary with no callback
at all. -/
theorem analyzer_soft_failure_contract :
    ∀ (ea : AnalyzeAudioEnv) (ev : AnalyzeVideoEnv) (cb : Bool),
      ((analyze_audio ea cb).1.isOk
          = (ea.librosaAvailable && (ea.fileExists && ea.load.isOk)))
      ∧ ((analyze_audio ea cb).2.countP (fun e => decide (e.1 < 0))
          = if cb = true ∧ ea.librosaAvailable = true
                ∧ (ea.fileExists = false ∨ ea.load.isOk = false) then 1 else 0)
      ∧ (ea.librosaAvailable = false →
          (analyze_audio ea cb).1 = Except.error "Audio analysis libraries not available"
            ∧ (analyze_audio ea cb).2 = [])
      ∧ (ea.librosaAvailable = true → ea.fileExists = false →
          (analyze_audio ea cb).1 = Except.error ("Audio file not found: " ++ ea.path))
      ∧ ((analyze_video ev cb).1.isOk = ev.fileExists)
      ∧ ((analyze_video ev cb).2.countP (fun e => decide (e.1 < 0))
          = if cb = true ∧ ev.fileExists = false then 1 else 0)
      ∧ (ev.fileExists = false →
          (analyze_video ev cb).1 = Except.error ("Video file not found: " ++ ev.path)) := by
  intro ea ev cb
  have hmap : ∀ (l : List ℕ),
      ((l.map (fun p => (Int.ofNat p, "Analyzing frame..."))).countP
        (fun e => decide (e.1 < 0))) = 0 := by
    intro l
    induction l with
    | nil => rfl
    | cons p t ih =>
      have hp : ¬ (Int.ofNat p < 0) := Int.not_lt.mpr (Int.ofNat_nonneg p)
      simp [List.countP_cons, ih, hp]
  refine ⟨?_, ?_, ?_, ?_, ?_, ?_, ?_⟩
  · rcases hA : ea.librosaAvailable with _ | _ <;>
      rcases hF : ea.fileExists with _ | _ <;>
      rcases hL : ea.load with e | u <;>
      simp [analyze_audio, hA, hF, hL, Except.isOk, Except.toBool]
  · rcases hA : ea.librosaAvailable with _ | _ <;>
      rcases hF : ea.fileExists with _ | _ <;>
      rcases hL : ea.load with e | u <;>
      rcases cb with _ | _ <;>
      simp [analyze_audio, hA, hF, hL, Except.isOk, Except.toBool]
  · intro h
    simp [analyze_audio, h]
  · intro h1 h2
    simp [analyze_audio, h1, h2]
  · rcases hF : ev.fileExists with _ | _ <;> simp [analyze_video, hF, Except.isOk, Except.toBool]
  · rcases hF : ev.fileExists with _ | _ <;> rcases cb with _ | _ <;>
      simp [analyze_video, hF, List.countP_append, List.countP_cons, hmap]
  · intro h
    simp [analyze_video, h]

/-- C4: witness applying the contract to the concrete
library-unavailable environment. -/
theorem analyzer_soft_failure_contract_witness :
    audioEnvUnavailable.librosaAvailable = false
    ∧ (analyze_audio audioEnvUnavailable true).2 = [] :=
  ⟨rfl, ((analyzer_soft_failure_contract audioEnvUnavailable
      ⟨"v.mp4", true, Except.ok ⟨45⟩, none, Except.error "e", Except.error "e", []⟩
      true).2.2.1 rfl).2⟩

/-- Concrete environment: an existing video whose container holds no
audio track; visual analysis succeeds. -/
def videoEnvNoAudio : AnalyzeVideoEnv :=
  { path := "talk.mp4", fileExists := true, basic_info := Except.ok ⟨45⟩,
    audio_path := none, audio_features := Except.error "unused",
    visual := Except.ok ⟨4/5, 9/10, ⟨some (1/250)⟩⟩, visualFrameEvents := [] }

/-- Test whether the `audio_features` field of a result carries an
error dictionary. -/
def audioFeaturesFieldIsErrorDict : Option (Except String AudioFeaturesV) → Bool
  | some (Except.error _) => true
  | _ => false

/-- C9: counterexample.  For a video with no embedded audio track the
analysis succeeds, but the `audio_features` group is left as the
initial empty dictionary (`none`), not an `error` marker as claimed:
no error dictionary is present in that field. -/
theorem video_no_audio_not_error_marker_cx :
    ((analyze_video videoEnvNoAudio true).1.toOption.map
        (fun r => audioFeaturesFieldIsErrorDict r.audio_features)) = some false
    ∧ ((analyze_video videoEnvNoAudio true).1.toOption.map (fun r => r.audio_features))
        = some none :=
  ⟨rfl, rfl⟩

/-- C9 (amended): a video with no audio track still analyzes
successfully: the `audio_features` key stays present as the
initialized empty dictionary (modelled `none`), not an error marker;
visual signals are computed normally; and because the empty dictionary
holds no `mean_energy` or `voice_activity_ratio` leaves, the two
audio-derived suitability inputs are absent, so those criteria
contribute neither points nor maximum to the score. -/
theorem video_no_audio_graceful :
    ∀ (ev : AnalyzeVideoEnv) (cb : Bool),
      ev.fileExists = true → ev.audio_path = none →
      ∃ r, (analyze_video ev cb).1 = Except.ok r
        ∧ r.audio_features = none
        ∧ r.visual_features = ev.visual
        ∧ r.training_suitability =
            assess_training_suitability_video
              { duration := ev.basic_info.toOption.map (·.duration)
                mean_energy := none
                face_detection_rate := ev.visual.toOption.map (·.face_detection_rate)
                voice_activity_ratio := none
                movement_analysis :=
                  ev.visual.toOption.map (fun v => v.movement_analysis.average_movement) }
        ∧ energyCritV none = ⟨0, 0, [], [], []⟩
        ∧ voiceActivityCritV none = ⟨0, 0, [], [], []⟩ := by
  intro ev cb h1 h2
  have hstep : (analyze_video ev cb).1 = Except.ok
      { basic_info := ev.basic_info
        audio_features := none
        visual_features := ev.visual
        personality_indicators := extract_personality_indicators_v ev.basic_info none ev.visual
        training_suitability := assess_training_suitability_video
          { duration := ev.basic_info.toOption.map (·.duration)
            mean_energy := none
            face_detection_rate := ev.visual.toOption.map (·.face_detection_rate)
            voice_activity_ratio := none
            movement_analysis :=
              ev.visual.toOption.map (fun v => v.movement_analysis.average_movement) } } := by
    simp [analyze_video, h1, h2, videoSuitabilityInputsOf]
  exact ⟨_, hstep, rfl, rfl, rfl, rfl, rfl⟩

/-- C9: witness applying the graceful-degradation theorem to the
concrete no-audio-track environment. -/
theorem video_no_audio_graceful_witness :
    videoEnvNoAudio.fileExists = true
    ∧ videoEnvNoAudio.audio_path = none
    ∧ ((analyze_video videoEnvNoAudio true).1.toOption.map (fun r => r.visual_features))
        = some videoEnvNoAudio.visual := by
  obtain ⟨r, hr, -, hv, -, -, -⟩ := video_no_audio_graceful videoEnvNoAudio true rfl rfl
  refine ⟨rfl, rfl, ?_⟩
  rw [hr]
  show some r.visual_features = some videoEnvNoAudio.visual
  rw [hv]

/-!
## Training pipeline orchestrator

`MultimodalTrainingPipeline` from `training_pipeline.py`.  The
in-memory `active_trainings` dictionary is an association list (the
`TrainingProgress` object stored there is the same object
`train_persona` mutates, so every field update goes through the map);
the persona output directory is a typed record with one field per file
the pipeline can write; per-file analyzer outcomes, file existence and
stage-level IO exceptions come from an environment.  A run is executed
against a cancellation schedule telling at which of the between-stage
points an external `cancel_training` call lands; progress callbacks are
modelled as the list of snapshots passed to the callback. -/

/-- One `TrainingProgress` dataclass value. -/
structure TrainingProgressR where
  persona_id : String
  current_step : String
  progress_percentage : ℚ
  estimated_time_remaining : Option ℚ
  status : String
  details : String
deriving Repr, DecidableEq

/-- Dictionary lookup in `active_trainings`. -/
def jobsLookup (m : List (String × TrainingProgressR)) (k : String) : Option TrainingProgressR :=
  (m.find? (fun p => p.1 == k)).map (·.2)

/-- Dictionary assignment `active_trainings[k] = v`. -/
def jobsSet (m : List (String × TrainingProgressR)) (k : String) (v : TrainingProgressR) :
    List (String × TrainingProgressR) :=
  if (m.find? (fun p => p.1 == k)).isSome then m.map (fun p => if p.1 == k then (p.1, v) else p)
  else m ++ [(k, v)]

/-- In-place mutation of the `TrainingProgress` object stored under a
key (the Python object is aliased, so field assignments are visible
through the map). -/
def jobsModify (m : List (String × TrainingProgressR)) (k : String)
    (f : TrainingProgressR → TrainingProgressR) : List (String × TrainingProgressR) :=
  m.map (fun p => if p.1 == k then (p.1, f p.2) else p)

/-- `MultimodalTrainingPipeline.cancel_training`: if the persona has a
registered job, set its stored status to `"cancelled"` (whatever its
current value) and return `True`; otherwise return `False`. -/
def cancel_training (m : List (String × TrainingProgressR)) (pid : String) :
    List (String × TrainingProgressR) × Bool :=
  if (jobsLookup m pid).isSome then
    (jobsModify m pid (fun p => { p with status := "cancelled" }), true)
  else (m, false)

/-- `MultimodalTrainingPipeline.get_training_progress`. -/
def get_training_progress (m : List (String × TrainingProgressR)) (pid : String) :
    Option TrainingProgressR :=
  jobsLookup m pid

/-- Content of `audio/audio_analysis.json`. -/
structure AudioAnalysisJson where
  analyses : List AudioRecord
  suitable_files : List String
  total_files : ℕ
deriving Repr, DecidableEq

/-- Content of `video/video_analysis.json`. -/
structure VideoAnalysisJson where
  analyses : List VideoRecord
  extracted_audio_files : List String
  total_files : ℕ
deriving Repr, DecidableEq

/-- The `writing_style` block of `personality_features.json`. -/
structure WritingStyle where
  average_sentence_length : ℚ
  vocabulary_complexity : ℕ
  punctuation_usage : ℕ
deriving Repr, DecidableEq

/-- Content of `personality_features.json` (the other keys are fixed
empty collections). -/
structure PersonalityFeaturesJson where
  writing_style : WritingStyle
deriving Repr, DecidableEq

/-- Python `str.split()` (whitespace runs, dropping empty parts). -/
def pySplitWs (s : String) : List String :=
  (s.split Char.isWhitespace).filter (· ≠ "")

/-- `MultimodalTrainingPipeline._extract_personality_features`
(content computation: join the texts, then the three writing-style
statistics). -/
def extract_personality_features (texts : List String) : PersonalityFeaturesJson :=
  let combined := String.intercalate " " texts
  { writing_style :=
      { average_sentence_length :=
          ((pySplitWs combined).length : ℚ) / ((max 1 ((combined.split (· = '.')).length) : ℕ) : ℚ)
        vocabulary_complexity := ((pySplitWs combined.toLower).dedup).length
        punctuation_usage :=
          (combined.toList.count '!') + (combined.toList.count '?') } }

/-- Content of `persona_model.json` (the wall-clock
`training_timestamp` is not modelled).  Every key below is written on
every synthesis; a `none` section is the `{}` default that
`_synthesize_persona_model` initializes and leaves in place when the
corresponding features file does not exist on disk. -/
structure PersonaModelJson where
  persona_id : String
  voice_model : Option Unit
  visual_model : Option Unit
  personality_model : Option PersonalityFeaturesJson
deriving Repr, DecidableEq

/-- The persona-scoped output directory: one field per file (or file
family) the pipeline can write; `none` / `[]` means the file was never
written.  `voice_features_json` and `visual_features_json` are the
files `_synthesize_persona_model` reads; no live code path writes
either (the aggregators write `advanced_voice_features.json` and
`advanced_visual_features.json`, and the only writer of
`visual_features.json` is the never-called `_extract_visual_features`). -/
structure FS where
  audio_analysis_json : Option AudioAnalysisJson := none
  voice_segments : List String := []
  video_analysis_json : Option VideoAnalysisJson := none
  clip_audio_files : List String := []
  processed_texts : List String := []
  processed_images : List String := []
  advanced_voice_features_json : Option VoiceCombinedFeatures := none
  advanced_visual_features_json : Option VisualCombinedFeatures := none
  personality_features_json : Option PersonalityFeaturesJson := none
  visual_features_json : Option Unit := none
  voice_features_json : Option Unit := none
  persona_model_json : Option PersonaModelJson := none
deriving Repr, DecidableEq

/-- Environment of one run: capability flags, the filesystem predicate,
per-file analyzer outcomes (`none` = error dictionary or per-file
exception, both skipped), the opaque voice-cloning engine result,
voice-segment and clip extraction results, text file contents, image
decodability, and one optional stage-level IO exception per stage
(anything raised inside a `_process_*`/`_synthesize_*` body outside
the per-file try/except blocks). -/
structure OrchEnv where
  videoProcessingAvailable : Bool
  fileExists : String → Bool
  analyzeAudio : String → Option AudioRecord
  trainVoiceSuccess : Bool
  voiceSegments : String → List String
  analyzeVideo : String → Option VideoRecord
  extractClips : String → List String
  clipAudio : String → Option String
  readText : String → Option String
  imageLoadOk : String → Bool
  audioStageError : Option String
  videoStageError : Option String
  textStageError : Option String
  imagesStageError : Option String
  synthesisError : Option String

/-- `suitability.get("overall_score", 0)` for an audio record. -/
def audioEffScore (r : AudioRecord) : ℚ :=
  (r.training_suitability.map (·.overall_score)).getD 0

/-- `suitability.get("overall_score", 0)` for a video record. -/
def videoEffScore (r : VideoRecord) : ℚ :=
  (r.training_suitability.map (·.overall_score)).getD 0

/-- The per-file loop of `_process_audio_files`: skip nonexistent
files, skip error results, collect analyses, and collect files whose
score clears 40. -/
def audioFileLoop (env : OrchEnv) (files : List String) :
    List AudioRecord × List String :=
  files.foldl
    (fun acc f =>
      if env.fileExists f then
        match env.analyzeAudio f with
        | none => acc
        | some r =>
          if 40 ≤ audioEffScore r then (acc.1 ++ [r], acc.2 ++ [f]) else (acc.1 ++ [r], acc.2)
      else acc)
    ([], [])

/-- `MultimodalTrainingPipeline._process_audio_files`: analyze the
batch, write `audio_analysis.json` unconditionally, train the voice
engine when suitable files exist and, on success, extract and copy
voice segments; finally store the advanced voice features (only when
at least one analysis succeeded, suitable or not). -/
def process_audio_files (env : OrchEnv) (files : List String) (fs : FS) : Except String FS :=
  match env.audioStageError with
  | some e => Except.error e
  | none =>
    let res := audioFileLoop env files
    let fs := { fs with audio_analysis_json := some ⟨res.1, res.2, files.length⟩ }
    let fs :=
      if res.2 ≠ [] then
        if env.trainVoiceSuccess then
          let segs := (res.2.map env.voiceSegments).flatten
          if segs ≠ [] then { fs with voice_segments := segs } else fs
        else fs
      else fs
    let fs :=
      if res.1 ≠ [] then
        { fs with advanced_voice_features_json := some (extract_advanced_voice_features res.1) }
      else fs
    Except.ok fs

/-- The per-file loop of `_process_video_files`: collect analyses and,
for suitable videos, the audio tracks extracted from their training
clips. -/
def videoFileLoop (env : OrchEnv) (files : List String) :
    List VideoRecord × List String :=
  files.foldl
    (fun acc f =>
      if env.fileExists f then
        match env.analyzeVideo f with
        | none => acc
        | some r =>
          if 40 ≤ videoEffScore r then
            (acc.1 ++ [r], acc.2 ++ (env.extractClips f).filterMap env.clipAudio)
          else (acc.1 ++ [r], acc.2)
      else acc)
    ([], [])

/-- `MultimodalTrainingPipeline._process_video_files`.  The follow-up
re-analysis of the extracted audio (threshold 30) computes
`suitable_audio` and only logs it, so it has no modelled effect; the
advanced visual features are stored when at least one analysis
succeeded. -/
def process_video_files (env : OrchEnv) (files : List String) (fs : FS) : Except String FS :=
  match env.videoStageError with
  | some e => Except.error e
  | none =>
    let res := videoFileLoop env files
    let fs := { fs with
      video_analysis_json := some ⟨res.1, res.2, files.length⟩
      clip_audio_files := res.2 }
    let fs :=
      if res.1 ≠ [] then
        { fs with advanced_visual_features_json := some (extract_advanced_visual_features res.1) }
      else fs
    Except.ok fs

/-- Python `str.strip()`: drop leading and trailing whitespace. -/
def pyStrip (s : String) : String :=
  ⟨((s.data.dropWhile Char.isWhitespace).reverse.dropWhile Char.isWhitespace).reverse⟩

/-- The per-file loop of `_process_text_files`: contents of existing,
readable files whose stripped content is nonempty (each is also written
as a `processed_NNN.txt`). -/
def textContents (env : OrchEnv) (files : List String) : List String :=
  files.filterMap (fun f =>
    if env.fileExists f then
      (env.readText f).bind (fun c => if pyStrip c ≠ "" then some c else none)
    else none)

/-- `MultimodalTrainingPipeline._process_text_files`. -/
def process_text_files (env : OrchEnv) (files : List String) (fs : FS) : Except String FS :=
  match env.textStageError with
  | some e => Except.error e
  | none =>
    let texts := textContents env files
    let fs := { fs with processed_texts := texts }
    let fs :=
      if texts ≠ [] then
        { fs with personality_features_json := some (extract_personality_features texts) }
      else fs
    Except.ok fs

/-- `MultimodalTrainingPipeline._process_image_files`: every existing,
decodable image is re-encoded as a `processed_NNN.jpg`;
`_extract_image_features` writes nothing. -/
def process_image_files (env : OrchEnv) (files : List String) (fs : FS) : Except String FS :=
  match env.imagesStageError with
  | some e => Except.error e
  | none =>
    Except.ok { fs with
      processed_images := files.filter (fun f => env.fileExists f && env.imageLoadOk f) }

/-- `MultimodalTrainingPipeline._synthesize_persona_model`: initialize
all three sections to the `{}` default, overwrite each from
`voice_features.json` / `visual_features.json` /
`personality_features.json` when that file exists, and write
`persona_model.json`. -/
def synthesize_persona_model (env : OrchEnv) (pid : String) (fs : FS) : Except String FS :=
  match env.synthesisError with
  | some e => Except.error e
  | none =>
    let pm : PersonaModelJson :=
      { persona_id := pid
        voice_model := fs.voice_features_json
        visual_model := fs.visual_features_json
        personality_model := fs.personality_features_json }
    Except.ok { fs with persona_model_json := some pm }

/-- The `training_data` argument of `train_persona`. -/
structure TrainingData where
  audio : List String
  video : List String
  text : List String
  images : List String
deriving Repr, DecidableEq

/-- `total_steps = len([k for k, v in training_data.items() if v])`:
nonempty modalities, counting video even when video processing is
unavailable. -/
def totalSteps (td : TrainingData) : ℕ :=
  [td.audio, td.video, td.text, td.images].countP (fun l => !l.isEmpty)

/-- One modality block of `train_persona`: display name, the noun used
in the progress strings, its file list, whether the block is enabled
(video additionally requires `VIDEO_PROCESSING_AVAILABLE`), and its
stage body. -/
structure ModalitySpec where
  detailNoun : String
  files : List String
  enabled : Bool
  run : FS → Except String FS

/-- The four modality blocks, in source order. -/
def modalitySpecs (env : OrchEnv) (td : TrainingData) : List ModalitySpec :=
  [⟨"audio files", td.audio, true, process_audio_files env td.audio⟩,
   ⟨"video files", td.video, env.videoProcessingAvailable, process_video_files env td.video⟩,
   ⟨"text files", td.text, true, process_text_files env td.text⟩,
   ⟨"image files", td.images, true, process_image_files env td.images⟩]

/-- State threaded through one `train_persona` run: the shared job map,
the persona directory, the callback snapshots delivered so far, the
`current_step` counter, and the pending stage exception (if any). -/
structure RunState where
  jobs : List (String × TrainingProgressR)
  fs : FS
  callbacks : List TrainingProgressR
  step : ℕ
  err : Option String

/-- Which between-stage points an external `cancel_training` call hits
during the run. -/
structure CancelSchedule where
  beforeAudio : Bool
  beforeVideo : Bool
  beforeText : Bool
  beforeImages : Bool
  beforeSynthesis : Bool
  beforeFinal : Bool
deriving Repr, DecidableEq

/-- The schedule with no cancellation. -/
def noCancel : CancelSchedule := ⟨false, false, false, false, false, false⟩

/-- Apply an external `cancel_training` call (it only touches the job
map). -/
def applyCancel (pid : String) (b : Bool) (st : RunState) : RunState :=
  if b then { st with jobs := (cancel_training st.jobs pid).1 } else st

/-- Field assignments on the stored `TrainingProgress` object. -/
def updateJob (pid : String) (f : TrainingProgressR → TrainingProgressR) (st : RunState) :
    RunState :=
  { st with jobs := jobsModify st.jobs pid f }

/-- `progress_callback(progress)`: snapshot the stored object. -/
def emitCb (pid : String) (st : RunState) : RunState :=
  match jobsLookup st.jobs pid with
  | some p => { st with callbacks := st.callbacks ++ [p] }
  | none => st

/-- One modality block: cooperative-cancellation point (which only
mutates the stored status), then — when the modality is nonempty and
enabled — the step-counter increment, the progress update and callback,
and the stage body; the stored status is never read. -/
def runModality (pid : String) (total : ℕ) (cancelBefore : Bool) (m : ModalitySpec)
    (st : RunState) : RunState :=
  if st.err.isSome then st
  else
    let st := applyCancel pid cancelBefore st
    if m.files ≠ [] ∧ m.enabled = true then
      let newStep := st.step + 1
      let st := { st with step := newStep }
      let st := updateJob pid (fun p =>
        { p with
          current_step := "Processing " ++ m.detailNoun ++ " (" ++ toString newStep ++ "/"
            ++ toString total ++ ")"
          progress_percentage := ((newStep : ℚ) / (total : ℚ)) * 100
          details := "Processing " ++ toString m.files.length ++ " " ++ m.detailNoun }) st
      let st := emitCb pid st
      match m.run st.fs with
      | Except.ok fs2 => { st with fs := fs2 }
      | Except.error e => { st with err := some e }
    else st

/-- The initial `TrainingProgress` of a run. -/
def initProgress (pid : String) : TrainingProgressR :=
  { persona_id := pid, current_step := "Initializing", progress_percentage := 0,
    estimated_time_remaining := none, status := "running",
    details := "Preparing training pipeline" }

/-- Registration of the job and the initial callback. -/
def initPhase (pid : String) : RunState :=
  emitCb pid
    { jobs := jobsSet [] pid (initProgress pid), fs := {}, callbacks := [], step := 0,
      err := none }

/-- The four modality blocks, paired with their cancellation points. -/
def modalityPhase (env : OrchEnv) (pid : String) (td : TrainingData) (sched : CancelSchedule)
    (st : RunState) : RunState :=
  ((modalitySpecs env td).zip
      [sched.beforeAudio, sched.beforeVideo, sched.beforeText, sched.beforeImages]).foldl
    (fun st mc => runModality pid (totalSteps td) mc.2 mc.1 st) st

/-- The synthesis step: fixed 95 percent progress callback, then
`_synthesize_persona_model` (skipped entirely if a stage already
raised). -/
def synthesisPhase (env : OrchEnv) (pid : String) (sched : CancelSchedule) (st : RunState) :
    RunState :=
  if st.err.isSome then st
  else
    let st := applyCancel pid sched.beforeSynthesis st
    let st := updateJob pid (fun p =>
      { p with
        current_step := "Synthesizing persona model"
        progress_percentage := 95
        details := "Creating unified persona model" }) st
    let st := emitCb pid st
    match synthesize_persona_model env pid st.fs with
    | Except.ok fs2 => { st with fs := fs2 }
    | Except.error e => { st with err := some e }

/-- The terminal update: completed (status overwritten to
`"completed"`, 100 percent, result `True`) or — when a stage raised —
failed (message captured in `details`, result `False`). -/
def finalPhase (pid : String) (sched : CancelSchedule) (st : RunState) : RunState × Bool :=
  match st.err with
  | none =>
    let st := applyCancel pid sched.beforeFinal st
    let st := updateJob pid (fun p =>
      { p with
        current_step := "Training completed"
        progress_percentage := 100
        status := "completed"
        details := "Persona training successful" }) st
    let st := emitCb pid st
    (st, true)
  | some e =>
    let st := updateJob pid (fun p =>
      { p with status := "failed", details := "Training failed: " ++ e }) st
    let st := emitCb pid st
    (st, false)

/-- `MultimodalTrainingPipeline.train_persona` run against a
cancellation schedule. -/
def train_persona (env : OrchEnv) (pid : String) (td : TrainingData)
    (sched : CancelSchedule) : RunState × Bool :=
  finalPhase pid sched (synthesisPhase env pid sched (modalityPhase env pid td sched (initPhase pid)))

/-- No stage of the environment raises a stage-level exception. -/
def noStageErrors (env : OrchEnv) : Prop :=
  env.audioStageError = none ∧ env.videoStageError = none ∧ env.textStageError = none
    ∧ env.imagesStageError = none ∧ env.synthesisError = none

theorem jobsLookup_modify_self (m : List (String × TrainingProgressR)) (k : String)
    (f : TrainingProgressR → TrainingProgressR) :
    jobsLookup (jobsModify m k f) k = (jobsLookup m k).map f := by
  induction m with
  | nil => rfl
  | cons a t ih =>
    by_cases h : a.1 == k
    · simp [jobsModify, jobsLookup, List.find?, h]
    · simp only [jobsModify, jobsLookup, List.map_cons, List.find?] at ih ⊢
      rw [if_neg (by simpa using h)]
      simp only [h]
      exact ih

theorem jobsLookup_cancel_self (m : List (String × TrainingProgressR)) (pid : String) :
    jobsLookup (cancel_training m pid).1 pid
      = (jobsLookup m pid).map (fun p => { p with status := "cancelled" })
    ∧ (cancel_training m pid).2 = (jobsLookup m pid).isSome := by
  unfold cancel_training
  by_cases h : (jobsLookup m pid).isSome
  · rw [if_pos h]
    exact ⟨jobsLookup_modify_self m pid (fun p => { p with status := "cancelled" }), h.symm⟩
  · rw [if_neg h]
    have h0 : jobsLookup m pid = none := by
      rcases ho : jobsLookup m pid with _ | p
      · rfl
      · exact absurd (by rw [ho]; rfl) h
    refine ⟨by simp [h0], by simp [h0]⟩

theorem applyCancel_fs (pid : String) (b : Bool) (st : RunState) :
    (applyCancel pid b st).fs = st.fs := by
  unfold applyCancel; split <;> rfl

theorem applyCancel_err (pid : String) (b : Bool) (st : RunState) :
    (applyCancel pid b st).err = st.err := by
  unfold applyCancel; split <;> rfl

theorem applyCancel_step (pid : String) (b : Bool) (st : RunState) :
    (applyCancel pid b st).step = st.step := by
  unfold applyCancel; split <;> rfl

theorem applyCancel_callbacks (pid : String) (b : Bool) (st : RunState) :
    (applyCancel pid b st).callbacks = st.callbacks := by
  unfold applyCancel; split <;> rfl

theorem emitCb_fs (pid : String) (st : RunState) : (emitCb pid st).fs = st.fs := by
  unfold emitCb; rcases jobsLookup st.jobs pid with _ | p <;> rfl

theorem emitCb_err (pid : String) (st : RunState) : (emitCb pid st).err = st.err := by
  unfold emitCb; rcases jobsLookup st.jobs pid with _ | p <;> rfl

theorem emitCb_step (pid : String) (st : RunState) : (emitCb pid st).step = st.step := by
  unfold emitCb; rcases jobsLookup st.jobs pid with _ | p <;> rfl

theorem emitCb_jobs (pid : String) (st : RunState) : (emitCb pid st).jobs = st.jobs := by
  unfold emitCb; rcases jobsLookup st.jobs pid with _ | p <;> rfl

/-- Evolution of `(fs, err, step)` through one modality block: this
projection of the state does not depend on the job map, the callbacks,
or the cancellation flag. -/
def coreRun (m : ModalitySpec) (c : FS × Option String × ℕ) : FS × Option String × ℕ :=
  if c.2.1.isSome then c
  else if m.files ≠ [] ∧ m.enabled = true then
    match m.run c.1 with
    | Except.ok fs2 => (fs2, none, c.2.2 + 1)
    | Except.error e => (c.1, some e, c.2.2 + 1)
  else c

theorem runModality_core (pid : String) (total : ℕ) (b : Bool) (m : ModalitySpec)
    (st : RunState) :
    ((runModality pid total b m st).fs, (runModality pid total b m st).err,
        (runModality pid total b m st).step)
      = coreRun m (st.fs, st.err, st.step) := by
  rcases he : st.err with _ | e0
  · unfold runModality coreRun
    by_cases hc : m.files ≠ [] ∧ m.enabled = true
    · obtain ⟨hc1, hc2⟩ := hc
      rcases hr : m.run st.fs with e | fs2 <;>
        simp [he, hc1, hc2, hr, applyCancel_fs, applyCancel_err, applyCancel_step,
          emitCb_fs, emitCb_err, emitCb_step, updateJob]
    · simp [he, hc, applyCancel_fs, applyCancel_err, applyCancel_step]
  · unfold runModality coreRun
    simp [he]

theorem isSome_map_opt {α β : Type} (f : α → β) (o : Option α) :
    (o.map f).isSome = o.isSome := by
  cases o <;> rfl

theorem updateJob_fs (pid : String) (f : TrainingProgressR → TrainingProgressR) (st : RunState) :
    (updateJob pid f st).fs = st.fs := rfl

theorem updateJob_err (pid : String) (f : TrainingProgressR → TrainingProgressR) (st : RunState) :
    (updateJob pid f st).err = st.err := rfl

theorem updateJob_lookup (pid : String) (f : TrainingProgressR → TrainingProgressR)
    (st : RunState) :
    jobsLookup (updateJob pid f st).jobs pid = (jobsLookup st.jobs pid).map f :=
  jobsLookup_modify_self st.jobs pid f

theorem applyCancel_lookup_isSome (pid : String) (b : Bool) (st : RunState) :
    (jobsLookup (applyCancel pid b st).jobs pid).isSome = (jobsLookup st.jobs pid).isSome := by
  unfold applyCancel
  split
  · show (jobsLookup (cancel_training st.jobs pid).1 pid).isSome = _
    rw [(jobsLookup_cancel_self st.jobs pid).1]
    exact isSome_map_opt _ _
  · rfl

theorem emitCb_updateJob_lookup_isSome (pid : String)
    (f : TrainingProgressR → TrainingProgressR) (st : RunState) :
    (jobsLookup (emitCb pid (updateJob pid f st)).jobs pid).isSome
      = (jobsLookup st.jobs pid).isSome := by
  rw [emitCb_jobs]
  show (jobsLookup (jobsModify st.jobs pid f) pid).isSome = _
  rw [jobsLookup_modify_self]
  exact isSome_map_opt _ _

theorem runModality_lookup_isSome (pid : String) (total : ℕ) (b : Bool) (m : ModalitySpec)
    (st : RunState) :
    (jobsLookup (runModality pid total b m st).jobs pid).isSome
      = (jobsLookup st.jobs pid).isSome := by
  unfold runModality
  by_cases he : st.err.isSome
  · rw [if_pos he]
  · rw [if_neg he]
    by_cases hc : m.files ≠ [] ∧ m.enabled = true
    · rw [if_pos hc]
      simp only [emitCb_fs, updateJob_fs]
      rcases hr : m.run (applyCancel pid b st).fs with e | fs2 <;> simp only [hr] <;>
        exact (emitCb_updateJob_lookup_isSome pid _ _).trans (applyCancel_lookup_isSome pid b st)
    · rw [if_neg hc]
      exact applyCancel_lookup_isSome pid b st

/-- The (fs, err, step) core of a full run: fold the four stage cores,
then synthesis.  Cancellation and callbacks cannot influence it. -/
def runCoreAll (env : OrchEnv) (pid : String) (td : TrainingData) : FS × Option String × ℕ :=
  let c := (modalitySpecs env td).foldl (fun c m => coreRun m c) (({} : FS), none, 0)
  if c.2.1.isSome then c
  else
    match synthesize_persona_model env pid c.1 with
    | Except.ok fs2 => (fs2, none, c.2.2)
    | Except.error e => (c.1, some e, c.2.2)

theorem foldl_runModality_core (pid : String) (total : ℕ)
    (l : List (ModalitySpec × Bool)) (st : RunState) :
    ((l.foldl (fun st mc => runModality pid total mc.2 mc.1 st) st).fs,
      (l.foldl (fun st mc => runModality pid total mc.2 mc.1 st) st).err,
      (l.foldl (fun st mc => runModality pid total mc.2 mc.1 st) st).step)
      = (l.map (·.1)).foldl (fun c m => coreRun m c) (st.fs, st.err, st.step) := by
  induction l generalizing st with
  | nil => rfl
  | cons mc t ih =>
    simp only [List.foldl_cons, List.map_cons]
    rw [ih, runModality_core]

theorem foldl_runModality_lookup_isSome (pid : String) (total : ℕ)
    (l : List (ModalitySpec × Bool)) (st : RunState) :
    (jobsLookup (l.foldl (fun st mc => runModality pid total mc.2 mc.1 st) st).jobs pid).isSome
      = (jobsLookup st.jobs pid).isSome := by
  induction l generalizing st with
  | nil => rfl
  | cons mc t ih =>
    simp only [List.foldl_cons]
    rw [ih, runModality_lookup_isSome]

theorem modalityPhase_core (env : OrchEnv) (pid : String) (td : TrainingData)
    (sched : CancelSchedule) (st : RunState) :
    ((modalityPhase env pid td sched st).fs, (modalityPhase env pid td sched st).err,
        (modalityPhase env pid td sched st).step)
      = (modalitySpecs env td).foldl (fun c m => coreRun m c) (st.fs, st.err, st.step) := by
  unfold modalityPhase
  rw [foldl_runModality_core]
  congr 1

theorem initPhase_core (pid : String) :
    (initPhase pid).fs = ({} : FS) ∧ (initPhase pid).err = none ∧ (initPhase pid).step = 0 :=
  ⟨emitCb_fs pid _, emitCb_err pid _, emitCb_step pid _⟩

theorem initPhase_lookup (pid : String) :
    jobsLookup (initPhase pid).jobs pid = some (initProgress pid) := by
  unfold initPhase
  rw [emitCb_jobs]
  simp [jobsSet, jobsLookup, List.find?]

theorem synthesisPhase_fs_err (env : OrchEnv) (pid : String) (sched : CancelSchedule)
    (st : RunState) (h : st.err = none) :
    ((synthesisPhase env pid sched st).fs, (synthesisPhase env pid sched st).err)
      = (match synthesize_persona_model env pid st.fs with
          | Except.ok fs2 => (fs2, none)
          | Except.error e => (st.fs, some e)) := by
  unfold synthesisPhase
  rw [if_neg (by simp [h])]
  simp only [emitCb_fs, updateJob_fs, applyCancel_fs]
  rcases hs : synthesize_persona_model env pid st.fs with e | fs2 <;>
    simp [hs, emitCb_fs, emitCb_err, updateJob_fs, applyCancel_fs, updateJob_err,
      applyCancel_err, h]

theorem synthesisPhase_err_some (env : OrchEnv) (pid : String) (sched : CancelSchedule)
    (st : RunState) (e : String) (h : st.err = some e) :
    synthesisPhase env pid sched st = st := by
  unfold synthesisPhase
  rw [if_pos (by simp [h])]

theorem synthesisPhase_lookup_isSome (env : OrchEnv) (pid : String) (sched : CancelSchedule)
    (st : RunState) :
    (jobsLookup (synthesisPhase env pid sched st).jobs pid).isSome
      = (jobsLookup st.jobs pid).isSome := by
  unfold synthesisPhase
  by_cases he : st.err.isSome
  · rw [if_pos he]
  · rw [if_neg he]
    simp only [emitCb_fs, updateJob_fs]
    rcases hs : synthesize_persona_model env pid (applyCancel pid sched.beforeSynthesis st).fs
        with e | fs2 <;> simp only [hs] <;>
      exact (emitCb_updateJob_lookup_isSome pid _ _).trans
        (applyCancel_lookup_isSome pid _ st)

theorem finalPhase_fs_err (pid : String) (sched : CancelSchedule) (st : RunState) :
    (finalPhase pid sched st).1.fs = st.fs ∧ (finalPhase pid sched st).1.err = st.err := by
  unfold finalPhase
  rcases h : st.err with _ | e
  · simp only [h]
    exact ⟨(emitCb_fs pid _).trans ((updateJob_fs pid _ _).trans (applyCancel_fs pid _ st)),
      ((emitCb_err pid _).trans ((updateJob_err pid _ _).trans (applyCancel_err pid _ st))).trans
        h⟩
  · simp only [h]
    exact ⟨(emitCb_fs pid _).trans (updateJob_fs pid _ st),
      ((emitCb_err pid _).trans (updateJob_err pid _ st)).trans h⟩

theorem finalPhase_completed (pid : String) (sched : CancelSchedule) (st : RunState)
    (he : st.err = none) (hj : (jobsLookup st.jobs pid).isSome = true) :
    ((jobsLookup (finalPhase pid sched st).1.jobs pid).map (·.status) = some "completed")
    ∧ ((jobsLookup (finalPhase pid sched st).1.jobs pid).map (·.progress_percentage) = some 100)
    ∧ (finalPhase pid sched st).2 = true := by
  unfold finalPhase
  simp only [he]
  have h1 : (jobsLookup (applyCancel pid sched.beforeFinal st).jobs pid).isSome = true :=
    (applyCancel_lookup_isSome pid _ st).trans hj
  obtain ⟨p, hp⟩ := Option.isSome_iff_exists.mp h1
  refine ⟨?_, ?_, ?_⟩ <;> simp [emitCb_jobs, updateJob_lookup, hp]

theorem finalPhase_failed (pid : String) (sched : CancelSchedule) (st : RunState) (e : String)
    (he : st.err = some e) (hj : (jobsLookup st.jobs pid).isSome = true) :
    ((jobsLookup (finalPhase pid sched st).1.jobs pid).map (·.status) = some "failed")
    ∧ (finalPhase pid sched st).2 = false := by
  unfold finalPhase
  simp only [he]
  obtain ⟨p, hp⟩ := Option.isSome_iff_exists.mp hj
  refine ⟨?_, ?_⟩ <;> simp [emitCb_jobs, updateJob_lookup, hp]

/-- Summary of one run, for any schedule: the artifacts and the pending
error equal the schedule-independent core; the job always ends
`"completed"` at 100 percent with result `True` when no stage raised,
and `"failed"` with result `False` otherwise. -/
theorem train_persona_summary (env : OrchEnv) (pid : String) (td : TrainingData)
    (sched : CancelSchedule) :
    (train_persona env pid td sched).1.fs = (runCoreAll env pid td).1
    ∧ (train_persona env pid td sched).1.err = (runCoreAll env pid td).2.1
    ∧ ((runCoreAll env pid td).2.1 = none →
        ((jobsLookup (train_persona env pid td sched).1.jobs pid).map (·.status)
            = some "completed"
          ∧ (jobsLookup (train_persona env pid td sched).1.jobs pid).map (·.progress_percentage)
              = some 100
          ∧ (train_persona env pid td sched).2 = true))
    ∧ (∀ e, (runCoreAll env pid td).2.1 = some e →
        ((jobsLookup (train_persona env pid td sched).1.jobs pid).map (·.status) = some "failed"
          ∧ (train_persona env pid td sched).2 = false)) := by
  have hinit := initPhase_core pid
  have hmod := modalityPhase_core env pid td sched (initPhase pid)
  rw [hinit.1, hinit.2.1, hinit.2.2] at hmod
  set A := modalityPhase env pid td sched (initPhase pid) with hA
  set C := (modalitySpecs env td).foldl (fun c m => coreRun m c) (({} : FS), none, 0) with hC
  have hAfs : A.fs = C.1 := congrArg (fun t => t.1) hmod
  have hAerr : A.err = C.2.1 := congrArg (fun t => t.2.1) hmod
  have hAlookup : (jobsLookup A.jobs pid).isSome = true := by
    rw [hA]
    unfold modalityPhase
    rw [foldl_runModality_lookup_isSome, initPhase_lookup]
    rfl
  set B := synthesisPhase env pid sched A with hB
  have hBlookup : (jobsLookup B.jobs pid).isSome = true := by
    rw [hB, synthesisPhase_lookup_isSome]
    exact hAlookup
  have hrun : train_persona env pid td sched = finalPhase pid sched B := rfl
  rcases hc : C.2.1 with _ | e0
  · -- no stage raised before synthesis
    have hBfe := synthesisPhase_fs_err env pid sched A (hAerr.trans hc)
    rw [hAfs] at hBfe
    have hcore : runCoreAll env pid td
        = (match synthesize_persona_model env pid C.1 with
            | Except.ok fs2 => (fs2, none, C.2.2)
            | Except.error e => (C.1, some e, C.2.2)) := by
      unfold runCoreAll
      rw [← hC, if_neg (by simp [hc])]
    rcases hs : synthesize_persona_model env pid C.1 with e | fs2
    · -- synthesis raised
      rw [hs] at hBfe
      have hcore2 : runCoreAll env pid td = (C.1, some e, C.2.2) := by rw [hcore, hs]
      have hBfs : B.fs = C.1 := congrArg (fun t => t.1) hBfe
      have hBerr : B.err = some e := congrArg (fun t => t.2) hBfe
      have hfin := finalPhase_fs_err pid sched B
      have hfail := finalPhase_failed pid sched B e hBerr hBlookup
      rw [hrun, hcore2]
      refine ⟨hfin.1.trans hBfs, hfin.2.trans hBerr, ?_, ?_⟩
      · intro h
        cases h
      · intro e2 he2
        exact ⟨hfail.1, hfail.2⟩
    · rw [hs] at hBfe
      have hcore2 : runCoreAll env pid td = (fs2, none, C.2.2) := by rw [hcore, hs]
      have hBfs : B.fs = fs2 := congrArg (fun t => t.1) hBfe
      have hBerr : B.err = none := congrArg (fun t => t.2) hBfe
      have hfin := finalPhase_fs_err pid sched B
      have hdone := finalPhase_completed pid sched B hBerr hBlookup
      rw [hrun, hcore2]
      refine ⟨hfin.1.trans hBfs, hfin.2.trans hBerr, ?_, ?_⟩
      · intro _
        exact ⟨hdone.1, hdone.2.1, hdone.2.2⟩
      · intro e2 he2
        cases he2
  · -- a stage raised: synthesis skipped
    have hBeq : B = A := synthesisPhase_err_some env pid sched A e0 (hAerr.trans hc)
    have hcore : runCoreAll env pid td = C := by
      unfold runCoreAll
      rw [← hC, if_pos (by simp [hc])]
    have hfin := finalPhase_fs_err pid sched B
    have hfail := finalPhase_failed pid sched B e0 (hBeq ▸ (hAerr.trans hc)) hBlookup
    rw [hrun, hcore]
    refine ⟨hfin.1.trans (hBeq ▸ hAfs), hfin.2.trans (hBeq ▸ hAerr), ?_, ?_⟩
    · intro h
      rw [hc] at h
      cases h
    · intro e2 _
      exact ⟨hfail.1, hfail.2⟩

/-- `_process_audio_files` under no stage-level exception: it returns
normally, writes `audio_analysis.json` unconditionally from the
per-file loop, and leaves the artifacts of the other modalities and
the synthesis inputs untouched. -/
theorem process_audio_files_spec (env : OrchEnv) (files : List String) (fs : FS)
    (h : env.audioStageError = none) :
    ∃ fs2, process_audio_files env files fs = Except.ok fs2
      ∧ fs2.audio_analysis_json
          = some ⟨(audioFileLoop env files).1, (audioFileLoop env files).2, files.length⟩
      ∧ fs2.video_analysis_json = fs.video_analysis_json
      ∧ fs2.processed_texts = fs.processed_texts
      ∧ fs2.processed_images = fs.processed_images
      ∧ fs2.personality_features_json = fs.personality_features_json
      ∧ fs2.voice_features_json = fs.voice_features_json
      ∧ fs2.visual_features_json = fs.visual_features_json
      ∧ fs2.persona_model_json = fs.persona_model_json := by
  unfold process_audio_files
  simp only [h]
  refine ⟨_, rfl, ?_⟩
  dsimp only
  repeat' split
  all_goals exact ⟨rfl, rfl, rfl, rfl, rfl, rfl, rfl, rfl⟩

/-- `_process_video_files` under no stage-level exception. -/
theorem process_video_files_spec (env : OrchEnv) (files : List String) (fs : FS)
    (h : env.videoStageError = none) :
    ∃ fs2, process_video_files env files fs = Except.ok fs2
      ∧ fs2.video_analysis_json
          = some ⟨(videoFileLoop env files).1, (videoFileLoop env files).2, files.length⟩
      ∧ fs2.audio_analysis_json = fs.audio_analysis_json
      ∧ fs2.processed_texts = fs.processed_texts
      ∧ fs2.processed_images = fs.processed_images
      ∧ fs2.personality_features_json = fs.personality_features_json
      ∧ fs2.voice_features_json = fs.voice_features_json
      ∧ fs2.visual_features_json = fs.visual_features_json
      ∧ fs2.persona_model_json = fs.persona_model_json := by
  unfold process_video_files
  simp only [h]
  refine ⟨_, rfl, ?_⟩
  dsimp only
  repeat' split
  all_goals exact ⟨rfl, rfl, rfl, rfl, rfl, rfl, rfl, rfl⟩

/-- `_process_text_files` under no stage-level exception: the processed
texts are exactly the readable nonempty contents, and
`personality_features.json` is written iff at least one such text
exists. -/
theorem process_text_files_spec (env : OrchEnv) (files : List String) (fs : FS)
    (h : env.textStageError = none) :
    ∃ fs2, process_text_files env files fs = Except.ok fs2
      ∧ fs2.processed_texts = textContents env files
      ∧ (textContents env files ≠ [] →
          fs2.personality_features_json
            = some (extract_personality_features (textContents env files)))
      ∧ (textContents env files = [] →
          fs2.personality_features_json = fs.personality_features_json)
      ∧ fs2.audio_analysis_json = fs.audio_analysis_json
      ∧ fs2.video_analysis_json = fs.video_analysis_json
      ∧ fs2.processed_images = fs.processed_images
      ∧ fs2.voice_features_json = fs.voice_features_json
      ∧ fs2.visual_features_json = fs.visual_features_json
      ∧ fs2.persona_model_json = fs.persona_model_json := by
  unfold process_text_files
  simp only [h]
  refine ⟨_, rfl, ?_⟩
  dsimp only
  by_cases hc : textContents env files ≠ []
  · rw [if_pos hc]
    exact ⟨rfl, fun _ => rfl, fun hx => absurd hx hc, rfl, rfl, rfl, rfl, rfl, rfl⟩
  · rw [if_neg hc]
    exact ⟨rfl, fun hy => absurd hy hc, fun _ => rfl, rfl, rfl, rfl, rfl, rfl, rfl⟩

/-- `_process_image_files` under no stage-level exception. -/
theorem process_image_files_spec (env : OrchEnv) (files : List String) (fs : FS)
    (h : env.imagesStageError = none) :
    process_image_files env files fs = Except.ok { fs with
      processed_images := files.filter (fun f => env.fileExists f && env.imageLoadOk f) } := by
  unfold process_image_files
  simp only [h]

/-- `_synthesize_persona_model` under no synthesis exception: it only
adds `persona_model.json`, copying the three section inputs from the
directory (the `Option` values model the `{}` defaults left in place
when the corresponding file does not exist). -/
theorem synthesize_persona_model_spec (env : OrchEnv) (pid : String) (fs : FS)
    (h : env.synthesisError = none) :
    synthesize_persona_model env pid fs = Except.ok { fs with
      persona_model_json := some ⟨pid, fs.voice_features_json, fs.visual_features_json,
        fs.personality_features_json⟩ } := by
  unfold synthesize_persona_model
  simp only [h]

/-- A fold whose step fixes every accumulator is the identity. -/
theorem foldl_congr_id {α β : Type} (g : α → β → α) (l : List β)
    (h : ∀ a, ∀ b ∈ l, g a b = a) : ∀ a, l.foldl g a = a := by
  induction l with
  | nil => intro a; rfl
  | cons x t ih =>
    intro a
    rw [List.foldl_cons, h a x (List.mem_cons_self x t)]
    exact ih (fun a b hb => h a b (List.mem_cons_of_mem x hb)) a

/-- When every audio file is nonexistent or fails analysis, the
per-file loop collects nothing. -/
theorem audioFileLoop_skip (env : OrchEnv) (files : List String)
    (h : ∀ f ∈ files, env.fileExists f = false ∨ env.analyzeAudio f = none) :
    audioFileLoop env files = ([], []) := by
  unfold audioFileLoop
  refine foldl_congr_id _ _ ?_ _
  intro acc f hf
  rcases h f hf with hx | hx
  · simp [hx]
  · cases hfe : env.fileExists f <;> simp [hfe, hx]

/-- When every video file is nonexistent or fails analysis, the
per-file loop collects nothing. -/
theorem videoFileLoop_skip (env : OrchEnv) (files : List String)
    (h : ∀ f ∈ files, env.fileExists f = false ∨ env.analyzeVideo f = none) :
    videoFileLoop env files = ([], []) := by
  unfold videoFileLoop
  refine foldl_congr_id _ _ ?_ _
  intro acc f hf
  rcases h f hf with hx | hx
  · simp [hx]
  · cases hfe : env.fileExists f <;> simp [hfe, hx]

/-- When every text file is nonexistent or unreadable, no contents are
collected. -/
theorem textContents_skip (env : OrchEnv) (files : List String)
    (h : ∀ f ∈ files, env.fileExists f = false ∨ env.readText f = none) :
    textContents env files = [] := by
  unfold textContents
  rw [List.filterMap_eq_nil_iff]
  intro f hf
  rcases h f hf with hx | hx <;> simp [hx]

/-- A modality block with an empty file list (or a disabled modality)
leaves the core untouched. -/
theorem coreRun_skip (m : ModalitySpec) (c : FS × Option String × ℕ)
    (h : ¬(m.files ≠ [] ∧ m.enabled = true)) (hc : c.2.1 = none) :
    coreRun m c = c := by
  unfold coreRun
  rw [if_neg (by simp [hc]), if_neg h]

/-- A nonempty enabled modality block whose stage body returns
normally advances the core. -/
theorem coreRun_ok (m : ModalitySpec) (c : FS × Option String × ℕ) (fs2 : FS)
    (h : m.files ≠ [] ∧ m.enabled = true) (hc : c.2.1 = none)
    (hr : m.run c.1 = Except.ok fs2) :
    coreRun m c = (fs2, none, c.2.2 + 1) := by
  unfold coreRun
  rw [if_neg (by simp [hc]), if_pos h, hr]

/-- No audio-stage outcome ever writes `voice_features.json` or
`visual_features.json`. -/
theorem process_audio_files_ghost (env : OrchEnv) (files : List String) (fs fs2 : FS)
    (h : process_audio_files env files fs = Except.ok fs2) :
    fs2.voice_features_json = fs.voice_features_json
    ∧ fs2.visual_features_json = fs.visual_features_json := by
  rcases he : env.audioStageError with _ | e
  · obtain ⟨fs3, heq, hrest⟩ := process_audio_files_spec env files fs he
    rw [heq] at h
    injection h with h
    subst h
    exact ⟨hrest.2.2.2.2.2.1, hrest.2.2.2.2.2.2.1⟩
  · unfold process_audio_files at h
    simp only [he] at h
    exact Except.noConfusion h

/-- No video-stage outcome ever writes `voice_features.json` or
`visual_features.json`. -/
theorem process_video_files_ghost (env : OrchEnv) (files : List String) (fs fs2 : FS)
    (h : process_video_files env files fs = Except.ok fs2) :
    fs2.voice_features_json = fs.voice_features_json
    ∧ fs2.visual_features_json = fs.visual_features_json := by
  rcases he : env.videoStageError with _ | e
  · obtain ⟨fs3, heq, hrest⟩ := process_video_files_spec env files fs he
    rw [heq] at h
    injection h with h
    subst h
    exact ⟨hrest.2.2.2.2.2.1, hrest.2.2.2.2.2.2.1⟩
  · unfold process_video_files at h
    simp only [he] at h
    exact Except.noConfusion h

/-- No text-stage outcome ever writes `voice_features.json` or
`visual_features.json`. -/
theorem process_text_files_ghost (env : OrchEnv) (files : List String) (fs fs2 : FS)
    (h : process_text_files env files fs = Except.ok fs2) :
    fs2.voice_features_json = fs.voice_features_json
    ∧ fs2.visual_features_json = fs.visual_features_json := by
  rcases he : env.textStageError with _ | e
  · obtain ⟨fs3, heq, hrest⟩ := process_text_files_spec env files fs he
    rw [heq] at h
    injection h with h
    subst h
    exact ⟨hrest.2.2.2.2.2.2.1, hrest.2.2.2.2.2.2.2.1⟩
  · unfold process_text_files at h
    simp only [he] at h
    exact Except.noConfusion h

/-- No image-stage outcome ever writes `voice_features.json` or
`visual_features.json`. -/
theorem process_image_files_ghost (env : OrchEnv) (files : List String) (fs fs2 : FS)
    (h : process_image_files env files fs = Except.ok fs2) :
    fs2.voice_features_json = fs.voice_features_json
    ∧ fs2.visual_features_json = fs.visual_features_json := by
  rcases he : env.imagesStageError with _ | e
  · rw [process_image_files_spec env files fs he] at h
    injection h with h
    subst h
    exact ⟨rfl, rfl⟩
  · unfold process_image_files at h
    simp only [he] at h
    exact Except.noConfusion h

/-- One core step preserves the two synthesis-input files whenever the
stage body does. -/
theorem coreRun_ghost_step (m : ModalitySpec) (c : FS × Option String × ℕ)
    (hm : ∀ fs fs2, m.run fs = Except.ok fs2 →
        fs2.voice_features_json = fs.voice_features_json
        ∧ fs2.visual_features_json = fs.visual_features_json) :
    (coreRun m c).1.voice_features_json = c.1.voice_features_json
    ∧ (coreRun m c).1.visual_features_json = c.1.visual_features_json := by
  unfold coreRun
  by_cases h1 : c.2.1.isSome = true
  · rw [if_pos h1]
    exact ⟨rfl, rfl⟩
  · rw [if_neg h1]
    by_cases h2 : m.files ≠ [] ∧ m.enabled = true
    · rw [if_pos h2]
      rcases hr : m.run c.1 with e | fs2
      · simp only [hr]
        exact ⟨trivial, trivial⟩
      · simp only [hr]
        exact ⟨(hm c.1 fs2 hr).1, (hm c.1 fs2 hr).2⟩
    · rw [if_neg h2]
      exact ⟨rfl, rfl⟩

/-- The schedule-independent core of a run with no stage-level
exception: no pending stage error, `audio_analysis.json` written iff
the audio modality is nonempty, `video_analysis.json` written whenever
the video block runs, and the text artifacts determined by the
collected contents. -/
theorem coreFold_spec (env : OrchEnv) (td : TrainingData) (hns : noStageErrors env) :
    ∃ (fsc : FS) (n : ℕ),
      (modalitySpecs env td).foldl (fun c m => coreRun m c) (({} : FS), none, 0) = (fsc, none, n)
      ∧ (td.audio ≠ [] → fsc.audio_analysis_json
            = some ⟨(audioFileLoop env td.audio).1, (audioFileLoop env td.audio).2,
                td.audio.length⟩)
      ∧ (td.audio = [] → fsc.audio_analysis_json = none)
      ∧ (td.video ≠ [] ∧ env.videoProcessingAvailable = true → fsc.video_analysis_json
            = some ⟨(videoFileLoop env td.video).1, (videoFileLoop env td.video).2,
                td.video.length⟩)
      ∧ fsc.processed_texts = textContents env td.text
      ∧ fsc.personality_features_json
          = (if textContents env td.text ≠ [] then
              some (extract_personality_features (textContents env td.text)) else none) := by
  obtain ⟨hA, hV, hT, hI, hS⟩ := hns
  have H1 : ∃ fs1 n1,
      coreRun ⟨"audio files", td.audio, true, process_audio_files env td.audio⟩
          (({} : FS), none, 0) = (fs1, none, n1)
      ∧ (td.audio ≠ [] → fs1.audio_analysis_json
            = some ⟨(audioFileLoop env td.audio).1, (audioFileLoop env td.audio).2,
                td.audio.length⟩)
      ∧ (td.audio = [] → fs1.audio_analysis_json = none)
      ∧ fs1.video_analysis_json = none
      ∧ fs1.processed_texts = []
      ∧ fs1.personality_features_json = none := by
    by_cases ha : td.audio = []
    · exact ⟨{}, 0, coreRun_skip _ _ (by simp [ha]) rfl, fun hx => absurd ha hx,
        fun _ => rfl, rfl, rfl, rfl⟩
    · obtain ⟨fs1, heq, hj, hvid, htex, himg, hper, hvoi, hvis, hpm⟩ :=
        process_audio_files_spec env td.audio {} hA
      exact ⟨fs1, _, coreRun_ok _ _ fs1 ⟨ha, rfl⟩ rfl heq, fun _ => hj,
        fun hx => absurd hx ha, hvid.trans rfl, htex.trans rfl, hper.trans rfl⟩
  obtain ⟨fs1, n1, h1eq, h1some, h1none, h1vid, h1tex, h1per⟩ := H1
  have H2 : ∃ fs2 n2,
      coreRun ⟨"video files", td.video, env.videoProcessingAvailable,
          process_video_files env td.video⟩ (fs1, none, n1) = (fs2, none, n2)
      ∧ fs2.audio_analysis_json = fs1.audio_analysis_json
      ∧ (td.video ≠ [] ∧ env.videoProcessingAvailable = true → fs2.video_analysis_json
            = some ⟨(videoFileLoop env td.video).1, (videoFileLoop env td.video).2,
                td.video.length⟩)
      ∧ fs2.processed_texts = fs1.processed_texts
      ∧ fs2.personality_features_json = fs1.personality_features_json := by
    by_cases hv : td.video ≠ [] ∧ env.videoProcessingAvailable = true
    · obtain ⟨fs2, heq, hj, haud, htex, himg, hper, hvoi, hvis, hpm⟩ :=
        process_video_files_spec env td.video fs1 hV
      exact ⟨fs2, _, coreRun_ok _ _ fs2 hv rfl heq, haud, fun _ => hj, htex, hper⟩
    · exact ⟨fs1, n1, coreRun_skip _ _ hv rfl, rfl, fun hx => absurd hx hv, rfl, rfl⟩
  obtain ⟨fs2, n2, h2eq, h2aud, h2vid, h2tex, h2per⟩ := H2
  have H3 : ∃ fs3 n3,
      coreRun ⟨"text files", td.text, true, process_text_files env td.text⟩
          (fs2, none, n2) = (fs3, none, n3)
      ∧ fs3.audio_analysis_json = fs2.audio_analysis_json
      ∧ fs3.video_analysis_json = fs2.video_analysis_json
      ∧ fs3.processed_texts = textContents env td.text
      ∧ fs3.personality_features_json
          = (if textContents env td.text ≠ [] then
              some (extract_personality_features (textContents env td.text)) else none) := by
    by_cases ht : td.text = []
    · refine ⟨fs2, n2, coreRun_skip _ _ (by simp [ht]) rfl, rfl, rfl, ?_, ?_⟩
      · rw [ht]
        exact h2tex.trans h1tex
      · rw [ht]
        rw [if_neg (fun hx => hx rfl)]
        exact h2per.trans h1per
    · obtain ⟨fs3, heq, htexts, hsome, hnone, haud, hvid, himgs, hvoi, hvis, hpm⟩ :=
        process_text_files_spec env td.text fs2 hT
      refine ⟨fs3, _, coreRun_ok _ _ fs3 ⟨ht, rfl⟩ rfl heq, haud, hvid, htexts, ?_⟩
      by_cases htc : textContents env td.text ≠ []
      · rw [if_pos htc]
        exact hsome htc
      · rw [if_neg htc]
        exact (hnone (Decidable.not_not.mp htc)).trans (h2per.trans h1per)
  obtain ⟨fs3, n3, h3eq, h3aud, h3vid, h3tex, h3per⟩ := H3
  have H4 : ∃ fs4 n4,
      coreRun ⟨"image files", td.images, true, process_image_files env td.images⟩
          (fs3, none, n3) = (fs4, none, n4)
      ∧ fs4.audio_analysis_json = fs3.audio_analysis_json
      ∧ fs4.video_analysis_json = fs3.video_analysis_json
      ∧ fs4.processed_texts = fs3.processed_texts
      ∧ fs4.personality_features_json = fs3.personality_features_json := by
    by_cases hi : td.images = []
    · exact ⟨fs3, n3, coreRun_skip _ _ (by simp [hi]) rfl, rfl, rfl, rfl, rfl⟩
    · exact ⟨_, _, coreRun_ok _ _ _ ⟨hi, rfl⟩ rfl (process_image_files_spec env td.images fs3 hI),
        rfl, rfl, rfl, rfl⟩
  obtain ⟨fs4, n4, h4eq, h4aud, h4vid, h4tex, h4per⟩ := H4
  simp only [modalitySpecs, List.foldl]
  rw [h1eq, h2eq, h3eq, h4eq]
  exact ⟨fs4, n4, rfl,
    fun hx => ((h4aud.trans h3aud).trans h2aud).trans (h1some hx),
    fun hx => ((h4aud.trans h3aud).trans h2aud).trans (h1none hx),
    fun hx => (h4vid.trans h3vid).trans (h2vid hx),
    h4tex.trans h3tex,
    h4per.trans h3per⟩

/-- Through the whole modality fold, `voice_features.json` and
`visual_features.json` are never written: the files
`_synthesize_persona_model` reads do not exist. -/
theorem coreFold_ghost (env : OrchEnv) (td : TrainingData) :
    ((modalitySpecs env td).foldl (fun c m => coreRun m c)
        (({} : FS), none, 0)).1.voice_features_json = none
    ∧ ((modalitySpecs env td).foldl (fun c m => coreRun m c)
        (({} : FS), none, 0)).1.visual_features_json = none := by
  simp only [modalitySpecs, List.foldl]
  refine ⟨?_, ?_⟩
  · exact ((coreRun_ghost_step _ _
        (fun fs fs2 h => process_image_files_ghost env td.images fs fs2 h)).1.trans
      (((coreRun_ghost_step _ _
        (fun fs fs2 h => process_text_files_ghost env td.text fs fs2 h)).1.trans
      (((coreRun_ghost_step _ _
        (fun fs fs2 h => process_video_files_ghost env td.video fs fs2 h)).1.trans
      (((coreRun_ghost_step _ _
        (fun fs fs2 h => process_audio_files_ghost env td.audio fs fs2 h)).1.trans
      rfl)))))))
  · exact ((coreRun_ghost_step _ _
        (fun fs fs2 h => process_image_files_ghost env td.images fs fs2 h)).2.trans
      (((coreRun_ghost_step _ _
        (fun fs fs2 h => process_text_files_ghost env td.text fs fs2 h)).2.trans
      (((coreRun_ghost_step _ _
        (fun fs fs2 h => process_video_files_ghost env td.video fs fs2 h)).2.trans
      (((coreRun_ghost_step _ _
        (fun fs fs2 h => process_audio_files_ghost env td.audio fs fs2 h)).2.trans
      rfl)))))))

/-- A degenerate environment: nothing on disk, every oracle trivial,
no stage-level exceptions. -/
def trivEnv : OrchEnv where
  videoProcessingAvailable := false
  fileExists := fun _ => false
  analyzeAudio := fun _ => none
  trainVoiceSuccess := false
  voiceSegments := fun _ => []
  analyzeVideo := fun _ => none
  extractClips := fun _ => []
  clipAudio := fun _ => none
  readText := fun _ => none
  imageLoadOk := fun _ => false
  audioStageError := none
  videoStageError := none
  textStageError := none
  imagesStageError := none
  synthesisError := none

/-- Environment with one readable nonempty text file on disk. -/
def textEnv : OrchEnv := { trivEnv with
  fileExists := fun _ => true
  readText := fun _ => some "General Kenobi. You are a bold one." }

/-- An audio record whose suitability score clears the training
threshold. -/
def suitableAudioRecord : AudioRecord := ⟨none, none, none, none, some ⟨50⟩⟩

/-- Environment with one suitable audio file on disk. -/
def suitableAudioEnv : OrchEnv := { trivEnv with
  fileExists := fun _ => true
  analyzeAudio := fun _ => some suitableAudioRecord }

/-- Training data with a single text file. -/
def textTd : TrainingData := ⟨[], [], ["story.txt"], []⟩

/-- Training data with a single audio file. -/
def audioTd : TrainingData := ⟨["a.wav"], [], [], []⟩

/-- Empty training data. -/
def emptyTd : TrainingData := ⟨[], [], [], []⟩

/-- Training data naming one file per modality. -/
def fullTd : TrainingData := ⟨["a.wav"], ["v.mp4"], ["t.txt"], ["i.jpg"]⟩

/-- Schedule: the external cancel lands after audio and video, right
before the text stage. -/
def cancelBeforeText : CancelSchedule := ⟨false, false, true, false, false, false⟩

/-- Schedule: the external cancel lands after synthesis, right before
the terminal update. -/
def cancelBeforeFinal : CancelSchedule := ⟨false, false, false, false, false, true⟩

/-- C1: counterexample.  A run over a single text modality is
cancelled right before the text stage, flipping the stored status to
"cancelled"; yet the text stage and synthesis still run, because
`train_persona` never reads the stored status between stages.  The job
ends "completed" with result `True` and the post-cancel artifacts
`personality_features.json` and `persona_model.json` are both written,
where the spec requires final status Cancelled and artifacts only for
the stages finished before the cancel. -/
theorem cancellation_ignored_cx :
    ((jobsLookup (train_persona textEnv "ellens" textTd cancelBeforeText).1.jobs "ellens").map
        (·.status) = some "completed")
    ∧ (train_persona textEnv "ellens" textTd
        cancelBeforeText).1.fs.personality_features_json.isSome = true
    ∧ (train_persona textEnv "ellens" textTd cancelBeforeText).1.fs.persona_model_json.isSome
        = true
    ∧ (train_persona textEnv "ellens" textTd cancelBeforeText).2 = true := by
  refine ⟨?_, ?_, ?_, ?_⟩ <;> rfl

/-- C1 (amended): cancellation does not influence the run at all.  The
artifacts, the pending stage error and the returned result of
`train_persona` are identical under every cancellation schedule, and
the final stored status is always "completed" or "failed", never
"cancelled". -/
theorem cancellation_ignored (env : OrchEnv) (pid : String) (td : TrainingData)
    (sched : CancelSchedule) :
    (train_persona env pid td sched).1.fs = (train_persona env pid td noCancel).1.fs
    ∧ (train_persona env pid td sched).1.err = (train_persona env pid td noCancel).1.err
    ∧ (train_persona env pid td sched).2 = (train_persona env pid td noCancel).2
    ∧ ((jobsLookup (train_persona env pid td sched).1.jobs pid).map (·.status)
          = some "completed"
        ∨ (jobsLookup (train_persona env pid td sched).1.jobs pid).map (·.status)
          = some "failed") := by
  have hs := train_persona_summary env pid td sched
  have hn := train_persona_summary env pid td noCancel
  refine ⟨hs.1.trans hn.1.symm, hs.2.1.trans hn.2.1.symm, ?_, ?_⟩
  · rcases hr : (runCoreAll env pid td).2.1 with _ | e
    · exact ((hs.2.2.1 hr).2.2).trans ((hn.2.2.1 hr).2.2).symm
    · exact ((hs.2.2.2 e hr).2).trans ((hn.2.2.2 e hr).2).symm
  · rcases hr : (runCoreAll env pid td).2.1 with _ | e
    · exact Or.inl (hs.2.2.1 hr).1
    · exact Or.inr (hs.2.2.2 e hr).1

/-- C6: counterexample.  A completed job is flipped to "cancelled" by
a later `cancel_training` call, and a job cancelled during the run is
overwritten to "completed" by the terminal update: terminal states are
not sticky in either direction. -/
theorem terminal_status_not_sticky_cx :
    ((jobsLookup (cancel_training (train_persona trivEnv "p1" emptyTd noCancel).1.jobs
          "p1").1 "p1").map (·.status) = some "cancelled")
    ∧ ((jobsLookup (train_persona trivEnv "p2" emptyTd cancelBeforeFinal).1.jobs "p2").map
        (·.status) = some "completed") := by
  exact ⟨rfl, rfl⟩

/-- C6 (amended): the stored status is overwritten unconditionally in
both directions: `cancel_training` stamps "cancelled" on any registered
job, terminal or not, returning whether a job was registered; and a run
whose stages raised no exception stamps "completed" at the end, even
over an intervening "cancelled". -/
theorem status_overwritten_unconditionally (m : List (String × TrainingProgressR))
    (env : OrchEnv) (pid : String) (td : TrainingData) (sched : CancelSchedule) :
    (jobsLookup (cancel_training m pid).1 pid
        = (jobsLookup m pid).map (fun p => { p with status := "cancelled" }))
    ∧ (cancel_training m pid).2 = (jobsLookup m pid).isSome
    ∧ ((train_persona env pid td sched).1.err = none →
        (jobsLookup (train_persona env pid td sched).1.jobs pid).map (·.status)
          = some "completed") := by
  refine ⟨(jobsLookup_cancel_self m pid).1, (jobsLookup_cancel_self m pid).2, fun h => ?_⟩
  have hsum := train_persona_summary env pid td sched
  exact (hsum.2.2.1 (hsum.2.1.symm.trans h)).1

/-- C6: witness instantiating the overwrite theorem on a registered
job and a concrete cancelled-then-completed run. -/
theorem status_overwritten_unconditionally_witness :
    (jobsLookup (cancel_training [("w", initProgress "w")] "w").1 "w"
        = some { initProgress "w" with status := "cancelled" })
    ∧ (jobsLookup (train_persona trivEnv "w" emptyTd cancelBeforeFinal).1.jobs "w").map
        (·.status) = some "completed" :=
  ⟨(status_overwritten_unconditionally [("w", initProgress "w")] trivEnv "w" emptyTd
      cancelBeforeFinal).1.trans rfl,
   (status_overwritten_unconditionally [("w", initProgress "w")] trivEnv "w" emptyTd
      cancelBeforeFinal).2.2 rfl⟩

/-- C2: counterexample.  A run whose single audio file is suitable
(score 50, threshold 40) still leaves the voice section of
`persona_model.json` at its `{}` default (modelled `none`):
`_synthesize_persona_model` reads `voice_features.json`, which no code
path writes.  So a modality with suitable files gets no real section,
and the defaulted section is present for the visual modality with zero
files as well. -/
theorem persona_sections_defaulted_cx :
    ((train_persona suitableAudioEnv "p" audioTd noCancel).1.fs.audio_analysis_json.map
        (·.suitable_files) = some ["a.wav"])
    ∧ ((train_persona suitableAudioEnv "p" audioTd noCancel).1.fs.persona_model_json.map
        (·.voice_model) = some none)
    ∧ ((train_persona suitableAudioEnv "p" audioTd noCancel).1.fs.persona_model_json.map
        (·.visual_model) = some none) := by
  refine ⟨?_, ?_, ?_⟩ <;> rfl

/-- C2 (amended): for every run that finishes without a pending stage
or synthesis exception, `persona_model.json` is written and its voice
and visual sections are always the `{}` defaults — the inputs
`voice_features.json` and `visual_features.json` are never written by
any stage — while the personality section mirrors
`personality_features.json`, suitable files notwithstanding. -/
theorem persona_model_sections (env : OrchEnv) (pid : String) (td : TrainingData)
    (sched : CancelSchedule) (hok : (train_persona env pid td sched).1.err = none) :
    ∃ pm, (train_persona env pid td sched).1.fs.persona_model_json = some pm
      ∧ pm.voice_model = none
      ∧ pm.visual_model = none
      ∧ pm.personality_model
          = (train_persona env pid td sched).1.fs.personality_features_json := by
  have hsum := train_persona_summary env pid td sched
  have herr : (runCoreAll env pid td).2.1 = none := hsum.2.1.symm.trans hok
  have hfs := hsum.1
  rcases hfold : (modalitySpecs env td).foldl (fun c m => coreRun m c) (({} : FS), none, 0)
      with ⟨fsc, ec, nc⟩
  have hghost := coreFold_ghost env td
  rw [hfold] at hghost
  have hrc0 : runCoreAll env pid td
      = if ec.isSome then (fsc, ec, nc)
        else match synthesize_persona_model env pid fsc with
          | Except.ok fs2 => (fs2, none, nc)
          | Except.error e => (fsc, some e, nc) := by
    unfold runCoreAll
    rw [hfold]
  rcases hec : ec with _ | e0
  · rw [hec] at hrc0
    rw [if_neg (by simp)] at hrc0
    rcases hsy : synthesize_persona_model env pid fsc with e | fs2
    · rw [hsy] at hrc0
      rw [hrc0] at herr
      exact Option.noConfusion herr
    · rw [hsy] at hrc0
      rcases hse : env.synthesisError with _ | e1
      · have hchar := synthesize_persona_model_spec env pid fsc hse
        rw [hchar] at hsy
        injection hsy with hsy
        rw [hrc0] at hfs
        refine ⟨⟨pid, fsc.voice_features_json, fsc.visual_features_json,
            fsc.personality_features_json⟩, ?_, hghost.1, hghost.2, ?_⟩
        · rw [hfs, ← hsy]
        · rw [hfs, ← hsy]
      · exfalso
        unfold synthesize_persona_model at hsy
        simp only [hse] at hsy
        exact Except.noConfusion hsy
  · rw [hec] at hrc0
    rw [if_pos (by simp)] at hrc0
    rw [hrc0] at herr
    exact Option.noConfusion herr

/-- C2: witness instantiating the synthesis theorem on a concrete
clean run. -/
theorem persona_model_sections_witness :
    ∃ pm, (train_persona trivEnv "pw" emptyTd noCancel).1.fs.persona_model_json = some pm
      ∧ pm.voice_model = none
      ∧ pm.visual_model = none
      ∧ pm.personality_model
          = (train_persona trivEnv "pw" emptyTd noCancel).1.fs.personality_features_json :=
  persona_model_sections trivEnv "pw" emptyTd noCancel rfl

/-- C10: with no stage-level exception, a run whose every audio, video
and text file is nonexistent or fails its per-file analysis still
returns `True` with status "completed" at 100 percent, still writes
the audit artifact `audio_analysis.json` (with empty analyses and
suitable-files lists) whenever audio files were supplied, and still
writes `persona_model.json`: per-file failure never yields a failed
job. -/
theorem all_failures_still_completed (env : OrchEnv) (pid : String) (td : TrainingData)
    (sched : CancelSchedule) (hns : noStageErrors env)
    (hau : ∀ f ∈ td.audio, env.fileExists f = false ∨ env.analyzeAudio f = none)
    (hvi : ∀ f ∈ td.video, env.fileExists f = false ∨ env.analyzeVideo f = none)
    (hte : ∀ f ∈ td.text, env.fileExists f = false ∨ env.readText f = none) :
    (train_persona env pid td sched).2 = true
    ∧ (jobsLookup (train_persona env pid td sched).1.jobs pid).map (·.status)
        = some "completed"
    ∧ (jobsLookup (train_persona env pid td sched).1.jobs pid).map (·.progress_percentage)
        = some 100
    ∧ (td.audio ≠ [] → (train_persona env pid td sched).1.fs.audio_analysis_json
        = some ⟨[], [], td.audio.length⟩)
    ∧ (td.video ≠ [] ∧ env.videoProcessingAvailable = true →
        (train_persona env pid td sched).1.fs.video_analysis_json
          = some ⟨[], [], td.video.length⟩)
    ∧ (train_persona env pid td sched).1.fs.processed_texts = []
    ∧ (train_persona env pid td sched).1.fs.persona_model_json.isSome = true := by
  obtain ⟨fsc, n, hfold, hasome, hanone, hvsome, htex, hper⟩ := coreFold_spec env td hns
  have hse := hns.2.2.2.2
  have hrc : runCoreAll env pid td
      = ({ fsc with persona_model_json := some ⟨pid, fsc.voice_features_json,
            fsc.visual_features_json, fsc.personality_features_json⟩ }, none, n) := by
    unfold runCoreAll
    rw [hfold]
    rw [if_neg (by simp)]
    rw [synthesize_persona_model_spec env pid fsc hse]
  have hsum := train_persona_summary env pid td sched
  have herr : (runCoreAll env pid td).2.1 = none := by rw [hrc]
  have hcomp := hsum.2.2.1 herr
  have hfs : (train_persona env pid td sched).1.fs
      = { fsc with persona_model_json := some ⟨pid, fsc.voice_features_json,
            fsc.visual_features_json, fsc.personality_features_json⟩ } := by
    rw [hsum.1, hrc]
  refine ⟨hcomp.2.2, hcomp.1, hcomp.2.1, ?_, ?_, ?_, ?_⟩
  · intro hx
    rw [hfs]
    show fsc.audio_analysis_json = _
    rw [hasome hx, audioFileLoop_skip env td.audio hau]
  · intro hx
    rw [hfs]
    show fsc.video_analysis_json = _
    rw [hvsome hx, videoFileLoop_skip env td.video hvi]
  · rw [hfs]
    show fsc.processed_texts = _
    rw [htex, textContents_skip env td.text hte]
  · rw [hfs]
    rfl

/-- C10: witness — one nonexistent file per modality in the trivial
environment. -/
theorem all_failures_still_completed_witness :
    (train_persona trivEnv "pz" fullTd noCancel).2 = true
    ∧ (jobsLookup (train_persona trivEnv "pz" fullTd noCancel).1.jobs "pz").map (·.status)
        = some "completed"
    ∧ (train_persona trivEnv "pz" fullTd noCancel).1.fs.audio_analysis_json
        = some ⟨[], [], 1⟩
    ∧ (train_persona trivEnv "pz" fullTd noCancel).1.fs.persona_model_json.isSome = true :=
  have H := all_failures_still_completed trivEnv "pz" fullTd noCancel
    ⟨rfl, rfl, rfl, rfl, rfl⟩
    (fun _ _ => Or.inl rfl) (fun _ _ => Or.inl rfl) (fun _ _ => Or.inl rfl)
  ⟨H.1, H.2.1, H.2.2.2.1 (by decide), H.2.2.2.2.2.2⟩

/-- The progress object stored and snapshotted by a modality block. -/
def stageProgress (noun : String) (nfiles stepN total : ℕ) (p : TrainingProgressR) :
    TrainingProgressR :=
  { p with
    current_step := "Processing " ++ noun ++ " (" ++ toString stepN ++ "/" ++ toString total
      ++ ")"
    progress_percentage := ((stepN : ℚ) / (total : ℚ)) * 100
    details := "Processing " ++ toString nfiles ++ " " ++ noun }

/-- The progress object stored by the synthesis step. -/
def synthProgress (p : TrainingProgressR) : TrainingProgressR :=
  { p with
    current_step := "Synthesizing persona model"
    progress_percentage := 95
    details := "Creating unified persona model" }

/-- The progress object stored by the successful terminal update. -/
def finalProgress (p : TrainingProgressR) : TrainingProgressR :=
  { p with
    current_step := "Training completed"
    progress_percentage := 100
    status := "completed"
    details := "Persona training successful" }

theorem applyCancel_false (pid : String) (st : RunState) : applyCancel pid false st = st := rfl

theorem updateJob_callbacks (pid : String) (f : TrainingProgressR → TrainingProgressR)
    (st : RunState) : (updateJob pid f st).callbacks = st.callbacks := rfl

theorem emitCb_updateJob (pid : String) (f : TrainingProgressR → TrainingProgressR)
    (st : RunState) (p : TrainingProgressR) (hp : jobsLookup st.jobs pid = some p) :
    emitCb pid (updateJob pid f st)
      = { st with jobs := jobsModify st.jobs pid f, callbacks := st.callbacks ++ [f p] } := by
  unfold emitCb
  rw [updateJob_lookup, hp, Option.map_some']
  rfl

theorem initPhase_callbacks (pid : String) :
    (initPhase pid).callbacks = [initProgress pid] := by
  have hp : jobsLookup (jobsSet [] pid (initProgress pid)) pid = some (initProgress pid) := by
    simp [jobsLookup, jobsSet, List.find?]
  unfold initPhase emitCb
  rw [hp]
  rfl

/-- An empty or disabled modality block only passes the state through
(the cooperative-cancellation point not taken, the state survives). -/
theorem runModality_skip (pid : String) (total : ℕ) (m : ModalitySpec) (st : RunState)
    (he : st.err = none) (hc : ¬(m.files ≠ [] ∧ m.enabled = true)) :
    runModality pid total false m st = st := by
  unfold runModality
  rw [if_neg (by simp [he]), applyCancel_false, if_neg hc]

/-- A nonempty enabled modality block with a normal stage body: the
effect on every component of the state. -/
theorem runModality_exec (pid : String) (total : ℕ) (m : ModalitySpec) (st : RunState)
    (fs2 : FS) (p : TrainingProgressR) (he : st.err = none) (hf : m.files ≠ [])
    (hen : m.enabled = true) (hr : m.run st.fs = Except.ok fs2)
    (hp : jobsLookup st.jobs pid = some p) :
    (runModality pid total false m st).callbacks
        = st.callbacks ++ [stageProgress m.detailNoun m.files.length (st.step + 1) total p]
    ∧ (runModality pid total false m st).fs = fs2
    ∧ (runModality pid total false m st).err = none
    ∧ (runModality pid total false m st).step = st.step + 1
    ∧ jobsLookup (runModality pid total false m st).jobs pid
        = some (stageProgress m.detailNoun m.files.length (st.step + 1) total p) := by
  unfold runModality
  rw [if_neg (by simp [he]), applyCancel_false, if_pos ⟨hf, hen⟩]
  dsimp only
  rw [emitCb_updateJob pid _ { st with step := st.step + 1 } p hp]
  dsimp only
  rw [hr]
  dsimp only
  refine ⟨rfl, rfl, he, rfl, ?_⟩
  rw [jobsLookup_modify_self, hp, Option.map_some']
  rfl

/-- The synthesis step with no pending error and a normal synthesis
body: the fixed 95 percent callback. -/
theorem synthesisPhase_exec (env : OrchEnv) (pid : String) (st : RunState) (fs2 : FS)
    (p : TrainingProgressR) (he : st.err = none) (hp : jobsLookup st.jobs pid = some p)
    (hr : synthesize_persona_model env pid st.fs = Except.ok fs2) :
    (synthesisPhase env pid noCancel st).callbacks = st.callbacks ++ [synthProgress p]
    ∧ (synthesisPhase env pid noCancel st).err = none
    ∧ jobsLookup (synthesisPhase env pid noCancel st).jobs pid = some (synthProgress p) := by
  unfold synthesisPhase
  rw [if_neg (by simp [he])]
  rw [show applyCancel pid noCancel.beforeSynthesis st = st from rfl]
  dsimp only
  rw [emitCb_updateJob pid _ st p hp]
  dsimp only
  rw [hr]
  dsimp only
  refine ⟨rfl, he, ?_⟩
  rw [jobsLookup_modify_self, hp, Option.map_some']
  rfl

/-- The terminal update with no pending error: the final "completed"
100 percent callback. -/
theorem finalPhase_exec (pid : String) (st : RunState) (p : TrainingProgressR)
    (he : st.err = none) (hp : jobsLookup st.jobs pid = some p) :
    (finalPhase pid noCancel st).1.callbacks = st.callbacks ++ [finalProgress p] := by
  unfold finalPhase
  simp only [he]
  rw [show applyCancel pid noCancel.beforeFinal st = st from rfl]
  rw [emitCb_updateJob pid _ st p hp]
  rfl

/-- Full-trace computation for a text-only run with no stage-level
exception and no cancellation: four callbacks with percentages
0, 100, 95, 100, the last being the terminal "completed" snapshot. -/
theorem textOnly_callback_trace (env : OrchEnv) (pid : String) (texts : List String)
    (hne : texts ≠ []) (hns : noStageErrors env) :
    ((train_persona env pid ⟨[], [], texts, []⟩ noCancel).1.callbacks.map
        (·.progress_percentage) = [0, 100, 95, 100])
    ∧ ((train_persona env pid ⟨[], [], texts, []⟩ noCancel).1.callbacks.map (·.status)
        = ["running", "running", "running", "completed"]) := by
  obtain ⟨hA, hV, hT, hI, hS⟩ := hns
  have h0 := initPhase_core pid
  have h0cb := initPhase_callbacks pid
  have h0look := initPhase_lookup pid
  have htot : totalSteps ⟨[], [], texts, []⟩ = 1 := by
    rcases texts with _ | ⟨a, t⟩
    · exact absurd rfl hne
    · rfl
  have e1 : runModality pid (totalSteps ⟨[], [], texts, []⟩) false
      ⟨"audio files", [], true, process_audio_files env []⟩ (initPhase pid)
        = initPhase pid :=
    runModality_skip pid _ _ _ h0.2.1 (by simp)
  have e2 : runModality pid (totalSteps ⟨[], [], texts, []⟩) false
      ⟨"video files", [], env.videoProcessingAvailable, process_video_files env []⟩
        (initPhase pid) = initPhase pid :=
    runModality_skip pid _ _ _ h0.2.1 (by simp)
  obtain ⟨fsT, hTeq, hTrest⟩ := process_text_files_spec env texts {} hT
  have hrT : process_text_files env texts (initPhase pid).fs = Except.ok fsT := by
    rw [h0.1]
    exact hTeq
  have HEX := runModality_exec pid (totalSteps ⟨[], [], texts, []⟩)
    ⟨"text files", texts, true, process_text_files env texts⟩ (initPhase pid) fsT
    (initProgress pid) h0.2.1 hne rfl hrT h0look
  have e4 : runModality pid (totalSteps ⟨[], [], texts, []⟩) false
      ⟨"image files", [], true, process_image_files env []⟩
      (runModality pid (totalSteps ⟨[], [], texts, []⟩) false
        ⟨"text files", texts, true, process_text_files env texts⟩ (initPhase pid))
      = runModality pid (totalSteps ⟨[], [], texts, []⟩) false
        ⟨"text files", texts, true, process_text_files env texts⟩ (initPhase pid) :=
    runModality_skip pid _ _ _ HEX.2.2.1 (by simp)
  have hmp : modalityPhase env pid ⟨[], [], texts, []⟩ noCancel (initPhase pid)
      = runModality pid (totalSteps ⟨[], [], texts, []⟩) false
        ⟨"text files", texts, true, process_text_files env texts⟩ (initPhase pid) := by
    unfold modalityPhase modalitySpecs
    simp only [noCancel, List.zip, List.zipWith, List.foldl]
    rw [e1, e2, e4]
  have hSok := synthesize_persona_model_spec env pid fsT hS
  have hrS : synthesize_persona_model env pid
      (runModality pid (totalSteps ⟨[], [], texts, []⟩) false
        ⟨"text files", texts, true, process_text_files env texts⟩ (initPhase pid)).fs
      = Except.ok { fsT with persona_model_json := some ⟨pid, fsT.voice_features_json,
          fsT.visual_features_json, fsT.personality_features_json⟩ } := by
    rw [HEX.2.1]
    exact hSok
  have HS := synthesisPhase_exec env pid _ _ _ HEX.2.2.1 HEX.2.2.2.2 hrS
  have HF := finalPhase_exec pid _ _ HS.2.1 HS.2.2
  have hrun : (train_persona env pid ⟨[], [], texts, []⟩ noCancel).1.callbacks
      = (finalPhase pid noCancel (synthesisPhase env pid noCancel
          (modalityPhase env pid ⟨[], [], texts, []⟩ noCancel (initPhase pid)))).1.callbacks :=
    rfl
  rw [hrun, hmp, HF, HS.1, HEX.1, h0cb]
  refine ⟨?_, ?_⟩ <;>
    simp [stageProgress, synthProgress, finalProgress, initProgress, htot, h0.2.2]

/-- C3 (amended): with exactly one non-empty modality (text) and no
stage-level exception, the uncancelled run delivers exactly four
callbacks with percentages 0, 100, 95, 100: the synthesis callback
always reports the fixed value 95, so the sequence is NOT
non-decreasing; the terminal "completed" callback is last and nothing
follows it. -/
theorem callback_sequence_single_modality (env : OrchEnv) (pid : String)
    (texts : List String) (hne : texts ≠ []) (hns : noStageErrors env) :
    ((train_persona env pid ⟨[], [], texts, []⟩ noCancel).1.callbacks.map
        (·.progress_percentage) = [0, 100, 95, 100])
    ∧ ((train_persona env pid ⟨[], [], texts, []⟩ noCancel).1.callbacks.map (·.status)
        = ["running", "running", "running", "completed"]) :=
  textOnly_callback_trace env pid texts hne hns

/-- C3: counterexample.  In a concrete single-modality (text) run the
delivered progress percentages are 0, 100, 95, 100: the synthesis
callback reports the fixed value 95 after the last modality callback
reported 100, so within one run the sequence of progress callbacks is
not non-decreasing. -/
theorem callbacks_not_monotone_cx :
    ((train_persona textEnv "p3" textTd noCancel).1.callbacks.map (·.progress_percentage)
        = [0, 100, 95, 100])
    ∧ ¬ List.Chain' (· ≤ ·)
        ((train_persona textEnv "p3" textTd noCancel).1.callbacks.map
          (·.progress_percentage)) := by
  have H := textOnly_callback_trace textEnv "p3" ["story.txt"] (by decide)
    ⟨rfl, rfl, rfl, rfl, rfl⟩
  have h1 : (train_persona textEnv "p3" textTd noCancel).1.callbacks.map
      (·.progress_percentage) = [0, 100, 95, 100] := H.1
  refine ⟨h1, ?_⟩
  rw [h1]
  intro h
  rw [List.chain'_cons, List.chain'_cons] at h
  exact absurd h.2.1 (by norm_num)

/-- C3: witness instantiating the single-modality callback trace on a
concrete environment. -/
theorem callback_sequence_single_modality_witness :
    ((train_persona textEnv "p4" ⟨[], [], ["story.txt"], []⟩ noCancel).1.callbacks.map
        (·.progress_percentage) = [0, 100, 95, 100])
    ∧ ((train_persona textEnv "p4" ⟨[], [], ["story.txt"], []⟩ noCancel).1.callbacks.map
        (·.status) = ["running", "running", "running", "completed"]) :=
  callback_sequence_single_modality textEnv "p4" ["story.txt"] (by decide)
    ⟨rfl, rfl, rfl, rfl, rfl⟩

/-!
## Voice segment extraction

`AudioAnalyzer.extract_voice_segments` and its helpers
`_detect_voice_segments` / `_clean_audio_segment`
(`src/core/audio_analyzer.py` 775-888).  The audio signal is a list of
rational samples.  The embedding keeps the exact index arithmetic of
the source, including the `librosa.util.frame(..., axis=0)` call:
with `axis=0` the framed array has shape `(n_frames, frame_length)`,
so `np.sum(frames ** 2, axis=0)` sums over the FRAMES and yields one
energy per intra-frame OFFSET — a vector of length 2048 whatever the
signal length — and the detection loop treats those 2048 offsets as
frame indices, with `sample_pos = i * 512` running up to 1048064.
-/

/-- Python slice `y[s:e]` for `0 ≤ s ≤ e` (clamped at both ends). -/
def pySlice (y : List ℚ) (s e : ℕ) : List ℚ := (y.drop s).take (e - s)

/-- Zero-extended indexing used for the `scipy.signal.medfilt`
zero padding. -/
def gpad (l : List ℚ) (k : ℤ) : ℚ :=
  if 0 ≤ k then l.getD k.toNat 0 else 0

/-- The median of five values (middle element of the sorted five). -/
def median5 (a b c d e : ℚ) : ℚ :=
  (List.insertionSort (· ≤ ·) [a, b, c, d, e]).getD 2 0

/-- `scipy.signal.medfilt(l, kernel_size=5)`: zero-padded median
filter. -/
def medfilt5 (l : List ℚ) : List ℚ :=
  (List.range l.length).map (fun (i : ℕ) =>
    median5 (gpad l ((i : ℤ) - 2)) (gpad l ((i : ℤ) - 1)) (gpad l ((i : ℤ)))
      (gpad l ((i : ℤ) + 1)) (gpad l ((i : ℤ) + 2)))

/-- `np.percentile(l, q)` with the default linear interpolation:
`s[lo] + (s[hi] - s[lo]) * (rank - lo)` on the sorted data, where
`rank = q/100 * (n-1)`. -/
def npPercentile (q : ℚ) (l : List ℚ) : ℚ :=
  if l.length = 0 then 0
  else
    let s := List.insertionSort (· ≤ ·) l
    let rank : ℚ := q / 100 * ((l.length : ℚ) - 1)
    let lo := (⌊rank⌋).toNat
    let hi := (⌈rank⌉).toNat
    s.getD lo 0 + (s.getD hi 0 - s.getD lo 0) * (rank - (lo : ℚ))

/-- The state-machine loop of `_detect_voice_segments` over the
voice-activity vector: `i` is the enumeration index (`sample_pos =
i * 512`), and the final clause handles voice running to the end of the
signal.  The length comparison is over ℤ exactly as Python subtracts
its unbounded ints; only the stored end is clamped with
`min(segment_end, len(y))`. -/
def detectLoop (minS : ℤ) (len : ℕ) : List Bool → ℕ → Bool → ℕ → List (ℕ × ℕ) →
    List (ℕ × ℕ)
  | [], _, inV, s, segs =>
    if inV = true ∧ minS ≤ (len : ℤ) - (s : ℤ) then segs ++ [(s, len)] else segs
  | b :: rest, i, inV, s, segs =>
    if b = true ∧ inV = false then detectLoop minS len rest (i + 1) true (i * 512) segs
    else if b = false ∧ inV = true then
      detectLoop minS len rest (i + 1) false s
        (if minS ≤ (i * 512 : ℤ) - (s : ℤ) then segs ++ [(s, min (i * 512) len)] else segs)
    else detectLoop minS len rest (i + 1) inV s segs

/-- `AudioAnalyzer._detect_voice_segments`: per-offset energies (the
`axis=0` framing), median smoothing when scipy is available, the
30th-percentile threshold, and the activity loop.  A signal shorter
than one frame makes `librosa.util.frame` raise; the except clause
returns `[]`. -/
def detect_voice_segments (scipyOn : Bool) (y : List ℚ) (sr : ℕ) (minDur : ℚ) :
    List (ℕ × ℕ) :=
  if y.length < 2048 then []
  else
    let nF := 1 + (y.length - 2048) / 512
    let energy := (List.range 2048).map (fun j =>
      ((List.range nF).map (fun i => (y.getD (i * 512 + j) 0) ^ 2)).sum)
    let smooth := if scipyOn then medfilt5 energy else energy
    let thr := npPercentile 30 smooth
    let act := smooth.map (fun x => decide (thr < x))
    detectLoop ⌊minDur * (sr : ℚ)⌋ y.length act 0 false 0 []

/-- Zero-padded centered access for `librosa.feature.rms`
(`center=True` pads 1024 zeros on each side). -/
def padGet (y : List ℚ) (k : ℕ) : ℚ :=
  if 1024 ≤ k then y.getD (k - 1024) 0 else 0

/-- Mean squared energy of centered frame `i`
(frame length 2048, hop 512). -/
def trimMse (y : List ℚ) (i : ℕ) : ℚ :=
  ((List.range 2048).map (fun j => (padGet y (i * 512 + j)) ^ 2)).sum / 2048

/-- `amin ** 2` for the 1e-10 amplitude clamp of
`librosa.amplitude_to_db`, squared because the embedding works in the
power domain to avoid square roots. -/
def amin2 : ℚ := 1 / 10 ^ 20

/-- The per-frame non-silence test of `librosa.effects.trim`
(`top_db=20`): in decibels `20*log10(max(amin,rms)) -
20*log10(max(amin,max rms)) > -20`, equivalently in the power domain
`100 * max(amin², mse) > max(amin², max mse)`. -/
def trimNonSilent (y : List ℚ) : List Bool :=
  let mses := (List.range (1 + y.length / 512)).map (fun i => trimMse y i)
  let ref := npMax mses
  mses.map (fun m => decide (max amin2 ref < 100 * max amin2 m))

/-- `librosa.effects.trim(segment, top_db=20)`: slice from the first
non-silent frame to `min(len, (last+1) * hop)`; all-silent input
yields the empty slice `y[0:0]`. -/
def librosaTrim (y : List ℚ) : List ℚ :=
  let ns := trimNonSilent y
  match ns.findIdx? (fun b => b = true), ns.reverse.findIdx? (fun b => b = true) with
  | some f, some r =>
    let last := ns.length - 1 - r
    pySlice y (f * 512) (min y.length ((last + 1) * 512))
  | _, _ => pySlice y 0 0

/-- `librosa.util.normalize`: divide by the peak magnitude (the
`np.finfo.tiny` threshold is modelled as 0; an all-zero or empty input
is returned unchanged, the empty case via the caught `np.max`
exception). -/
def librosaNormalize (l : List ℚ) : List ℚ :=
  match l with
  | [] => []
  | _ =>
    let m := npMax (l.map (fun x => |x|))
    if m = 0 then l else l.map (fun x => x / m)

/-- One second-order IIR section (normalized `a0 = 1`), the
coefficient shape `scipy.signal.butter(2, 80, btype=highpass,
output=sos)` produces (its real coefficients are irrational; the
theorems hold for every section). -/
structure Sos where
  b0 : ℚ
  b1 : ℚ
  b2 : ℚ
  a1 : ℚ
  a2 : ℚ

/-- Direct-form-II-transposed step of `scipy.signal.sosfilt`. -/
def sosStep (c : Sos) (st : ℚ × ℚ) (x : ℚ) : (ℚ × ℚ) × ℚ :=
  let y := c.b0 * x + st.1
  ((c.b1 * x - c.a1 * y + st.2, c.b2 * x - c.a2 * y), y)

/-- `scipy.signal.sosfilt` with zero initial state. -/
def sosfiltGo (c : Sos) : ℚ × ℚ → List ℚ → List ℚ
  | _, [] => []
  | st, x :: t =>
    let r := sosStep c st x
    r.2 :: sosfiltGo c r.1 t

/-- `scipy.signal.sosfilt` over one section. -/
def sosfilt (c : Sos) (l : List ℚ) : List ℚ := sosfiltGo c (0, 0) l

/-- `AudioAnalyzer._clean_audio_segment`: trim, normalize, and (when
scipy is available) the high-pass filter. -/
def clean_audio_segment (c : Sos) (scipyOn : Bool) (seg : List ℚ) : List ℚ :=
  let seg := librosaTrim seg
  let seg := librosaNormalize seg
  if scipyOn then sosfilt c seg else seg

/-- `AudioAnalyzer.extract_voice_segments`: detect the segments, slice
each out of the signal, clean it and write it as a segment file.  The
result is the list of written segment files, each as its sample
content. -/
def extract_voice_segments (c : Sos) (librosaOn scipyOn : Bool) (y : List ℚ) (sr : ℕ)
    (minDur : ℚ) : List (List ℚ) :=
  if librosaOn = false then []
  else
    (detect_voice_segments scipyOn y sr minDur).map
      (fun se => clean_audio_segment c scipyOn (pySlice y se.1 se.2))

/-- Total clamped slice length of a segment list. -/
def sumSlices (y : List ℚ) (segs : List (ℕ × ℕ)) : ℕ :=
  (segs.map (fun se => (pySlice y se.1 se.2).length)).sum

/-- The identity filter section. -/
def idSos : Sos := ⟨1, 0, 0, 0, 0⟩

/-- The counterexample signal: 2048 samples (exactly one frame) at
sample rate 22050: 600 zeros, 1200 ones, 248 zeros. -/
def y0 : List ℚ :=
  List.replicate 600 0 ++ List.replicate 1200 1 ++ List.replicate 248 0

theorem pySlice_length (y : List ℚ) (s e : ℕ) :
    (pySlice y s e).length = min (e - s) (y.length - s) := by
  simp [pySlice]

theorem sosfiltGo_length (c : Sos) : ∀ (st : ℚ × ℚ) (l : List ℚ),
    (sosfiltGo c st l).length = l.length
  | _, [] => rfl
  | st, x :: t => by
    unfold sosfiltGo
    simp [sosfiltGo_length c _ t]

theorem librosaNormalize_length (l : List ℚ) : (librosaNormalize l).length = l.length := by
  unfold librosaNormalize
  rcases l with _ | ⟨x, t⟩
  · rfl
  · dsimp only
    split <;> simp

theorem librosaTrim_length_le (y : List ℚ) : (librosaTrim y).length ≤ y.length := by
  have hb : ∀ s e, (pySlice y s e).length ≤ y.length := by
    intro s e
    rw [pySlice_length]
    omega
  unfold librosaTrim
  dsimp only
  rcases h1 : (trimNonSilent y).findIdx? (fun b => b = true) with _ | f <;>
    rcases h2 : (trimNonSilent y).reverse.findIdx? (fun b => b = true) with _ | r <;>
    simp only [h1, h2] <;> exact hb _ _

theorem clean_audio_segment_length_le (c : Sos) (scipyOn : Bool) (seg : List ℚ) :
    (clean_audio_segment c scipyOn seg).length ≤ seg.length := by
  unfold clean_audio_segment
  dsimp only
  split
  · unfold sosfilt
    rw [sosfiltGo_length, librosaNormalize_length]
    exact librosaTrim_length_le seg
  · rw [librosaNormalize_length]
    exact librosaTrim_length_le seg

/-- Invariant proof for the detection loop: the clamped slices of the
emitted segments stay within the signal, totalling at most its
length. -/
theorem detectLoop_sum (minS : ℤ) (y : List ℚ) (act : List Bool) :
    ∀ (i s : ℕ) (inV : Bool) (segs : List (ℕ × ℕ)),
      (inV = true → s ≤ i * 512)
      → sumSlices y segs ≤ min (i * 512) y.length
      → (inV = true → sumSlices y segs ≤ min s y.length)
      → sumSlices y (detectLoop minS y.length act i inV s segs) ≤ y.length := by
  induction act with
  | nil =>
    intro i s inV segs h1 h2 h3
    unfold detectLoop
    split
    · rename_i hc
      have hv := h3 hc.1
      have hL : sumSlices y (segs ++ [(s, y.length)])
          = sumSlices y segs + (pySlice y s y.length).length := by
        simp [sumSlices]
      rw [hL, pySlice_length]
      omega
    · exact le_trans h2 (min_le_right _ _)
  | cons b rest ih =>
    intro i s inV segs h1 h2 h3
    unfold detectLoop
    by_cases hb1 : b = true ∧ inV = false
    · rw [if_pos hb1]
      apply ih (i + 1) (i * 512) true segs
      · intro _
        omega
      · omega
      · intro _
        exact h2
    · rw [if_neg hb1]
      by_cases hb2 : b = false ∧ inV = true
      · rw [if_pos hb2]
        have hs := h1 hb2.2
        have h3s := h3 hb2.2
        apply ih (i + 1) s false
        · intro h
          simp at h
        · split
          · have hL : sumSlices y (segs ++ [(s, min (i * 512) y.length)])
                = sumSlices y segs + (pySlice y s (min (i * 512) y.length)).length := by
              simp [sumSlices]
            rw [hL, pySlice_length]
            omega
          · omega
        · intro h
          simp at h
      · rw [if_neg hb2]
        apply ih (i + 1) s inV segs
        · intro hv
          have := h1 hv
          omega
        · omega
        · exact h3

/-- The segments reported by `_detect_voice_segments` carve out at
most the whole signal. -/
theorem detect_voice_segments_sum (scipyOn : Bool) (y : List ℚ) (sr : ℕ) (minDur : ℚ) :
    sumSlices y (detect_voice_segments scipyOn y sr minDur) ≤ y.length := by
  unfold detect_voice_segments
  split
  · simp [sumSlices]
  · dsimp only
    apply detectLoop_sum
    · intro h
      simp at h
    · simp [sumSlices]
    · intro h
      simp at h

theorem sum_map_natCast_div {α : Type} (l : List α) (f : α → ℕ) (c : ℚ) :
    (l.map (fun a => ((f a : ℚ)) / c)).sum = (((l.map f).sum : ℕ) : ℚ) / c := by
  induction l with
  | nil => simp
  | cons x t ih =>
    simp only [List.map_cons, List.sum_cons, ih]
    push_cast
    ring

/-- C8 (amended): the clamped slices are pairwise disjoint subranges
of the recording and cleaning never lengthens a segment, so the summed
duration of the segment files returned by `extract_voice_segments`
never exceeds the source duration.  The other half of the claim — that
each file lasts at least `minDuration` — is false; see the
counterexample. -/
theorem voice_segments_sum_le_duration (c : Sos) (librosaOn scipyOn : Bool) (y : List ℚ)
    (sr : ℕ) (minDur : ℚ) :
    ((extract_voice_segments c librosaOn scipyOn y sr minDur).map
        (fun seg => (seg.length : ℚ) / (sr : ℚ))).sum
      ≤ (y.length : ℚ) / (sr : ℚ) := by
  have hnn : (0 : ℚ) ≤ (y.length : ℚ) / (sr : ℚ) :=
    div_nonneg (Nat.cast_nonneg _) (Nat.cast_nonneg _)
  unfold extract_voice_segments
  split
  · simpa using hnn
  · rw [List.map_map]
    have hEq := sum_map_natCast_div (detect_voice_segments scipyOn y sr minDur)
      (fun se => (clean_audio_segment c scipyOn (pySlice y se.1 se.2)).length) ((sr : ℕ) : ℚ)
    rw [show ((detect_voice_segments scipyOn y sr minDur).map
        ((fun seg => ((seg.length : ℚ)) / (sr : ℚ)) ∘
          (fun se => clean_audio_segment c scipyOn (pySlice y se.1 se.2))))
        = (detect_voice_segments scipyOn y sr minDur).map
          (fun se => (((clean_audio_segment c scipyOn (pySlice y se.1 se.2)).length : ℚ))
            / (sr : ℚ)) from rfl]
    rw [hEq]
    have hN : ((detect_voice_segments scipyOn y sr minDur).map
        (fun se => (clean_audio_segment c scipyOn (pySlice y se.1 se.2)).length)).sum
        ≤ y.length := by
      have hmid : ((detect_voice_segments scipyOn y sr minDur).map
          (fun se => (clean_audio_segment c scipyOn (pySlice y se.1 se.2)).length)).sum
          ≤ sumSlices y (detect_voice_segments scipyOn y sr minDur) := by
        unfold sumSlices
        apply List.sum_le_sum
        intro se _
        exact clean_audio_segment_length_le c scipyOn _
      exact le_trans hmid (detect_voice_segments_sum scipyOn y sr minDur)
    rcases Nat.eq_zero_or_pos sr with h0 | hpos
    · subst h0
      simp
    · have hc : (0 : ℚ) < (sr : ℚ) := by exact_mod_cast hpos
      exact (div_le_div_iff_of_pos_right hc).mpr (by exact_mod_cast hN)

theorem getD_replicate (a d : ℚ) (n m : ℕ) :
    (List.replicate n a).getD m d = if m < n then a else d := by
  rw [List.getD_eq_getElem?_getD, List.getElem?_replicate]
  split <;> simp

theorem y0_length : y0.length = 2048 := by
  simp only [y0, List.length_append, List.length_replicate]

theorem y0_getD (i : ℕ) : y0.getD i 0 = if 600 ≤ i ∧ i < 1800 then 1 else 0 := by
  unfold y0
  by_cases h2 : i < 1800
  · rw [List.getD_append _ _ _ _
      (by simp only [List.length_append, List.length_replicate]; omega)]
    by_cases h1 : i < 600
    · rw [List.getD_append _ _ _ _ (by simp only [List.length_replicate]; omega),
        getD_replicate]
      split_ifs <;> first | rfl | omega
    · rw [List.getD_append_right _ _ _ _ (by simp only [List.length_replicate]; omega)]
      simp only [List.length_replicate]
      rw [getD_replicate]
      split_ifs <;> first | rfl | omega
  · rw [List.getD_append_right _ _ _ _
      (by simp only [List.length_append, List.length_replicate]; omega)]
    simp only [List.length_append, List.length_replicate]
    rw [getD_replicate]
    split_ifs <;> first | rfl | omega

theorem energy_y0 :
    (List.range 2048).map (fun j =>
        ((List.range (1 + (y0.length - 2048) / 512)).map
          (fun i => (y0.getD (i * 512 + j) 0) ^ 2)).sum)
      = y0 := by
  have hn : 1 + (y0.length - 2048) / 512 = 1 := by
    rw [y0_length]
  rw [hn]
  apply List.ext_getElem
  · simp only [List.length_map, List.length_range, y0_length]
  intro i h1 h2
  simp only [List.getElem_map, List.getElem_range,
    show List.range 1 = [0] from rfl, List.map_cons, List.map_nil, List.sum_cons,
    List.sum_nil]
  rw [← List.getD_eq_getElem y0 (0 : ℚ) h2]
  rw [show 0 * 512 + i = i from by omega]
  simp only [y0_getD]
  split_ifs <;> norm_num

theorem gpad_y0 (k : ℤ) : gpad y0 k = if 600 ≤ k ∧ k < 1800 then 1 else 0 := by
  unfold gpad
  by_cases hk : 0 ≤ k
  · rw [if_pos hk, y0_getD]
    split_ifs <;> first | rfl | omega
  · rw [if_neg hk, if_neg (by omega)]

theorem medfilt5_y0 : medfilt5 y0 = y0 := by
  unfold medfilt5
  apply List.ext_getElem
  · simp only [List.length_map, List.length_range]
  intro i h1 h2
  simp only [List.getElem_map, List.getElem_range]
  simp only [gpad_y0]
  rw [← List.getD_eq_getElem y0 (0 : ℚ) h2]
  simp only [y0_getD]
  have hi : i < 2048 := by
    rw [y0_length] at h2
    exact h2
  split_ifs <;> first | (exfalso; omega) | decide

theorem sort_y0 :
    List.insertionSort (· ≤ ·) y0 = List.replicate 848 (0 : ℚ) ++ List.replicate 1200 1 := by
  refine @List.eq_of_perm_of_sorted ℚ (· ≤ ·) inferInstance _ _ ?_ ?_ ?_
  · have p1 : List.Perm y0
        (List.replicate 600 (0 : ℚ) ++ (List.replicate 248 (0 : ℚ) ++ List.replicate 1200 1)) := by
      unfold y0
      rw [List.append_assoc]
      exact List.Perm.append_left _ List.perm_append_comm
    have p2 : (List.replicate 600 (0 : ℚ) ++ (List.replicate 248 (0 : ℚ) ++ List.replicate 1200 1))
        = List.replicate 848 (0 : ℚ) ++ List.replicate 1200 1 := by
      rw [← List.append_assoc, ← List.replicate_add]
    exact (List.perm_insertionSort _ y0).trans (p2 ▸ p1)
  · exact List.sorted_insertionSort _ y0
  · rw [List.Sorted, List.pairwise_append]
    refine ⟨?_, ?_, ?_⟩
    · exact List.pairwise_replicate.mpr (Or.inr le_rfl)
    · exact List.pairwise_replicate.mpr (Or.inr le_rfl)
    · intro x hx z hz
      rw [List.eq_of_mem_replicate hx, List.eq_of_mem_replicate hz]
      norm_num

theorem thr_y0 : npPercentile 30 y0 = 0 := by
  unfold npPercentile
  rw [if_neg (by rw [y0_length]; norm_num)]
  dsimp only
  rw [sort_y0, y0_length]
  have hrank : (30 : ℚ) / 100 * (((2048 : ℕ) : ℚ) - 1) = 6141 / 10 := by
    push_cast
    norm_num
  rw [hrank]
  have hfl : ⌊(6141 / 10 : ℚ)⌋ = 614 := by norm_num [Int.floor_eq_iff]
  have hcl : ⌈(6141 / 10 : ℚ)⌉ = 615 := by norm_num [Int.ceil_eq_iff]
  rw [hfl, hcl]
  have h1 : (List.replicate 848 (0 : ℚ) ++ List.replicate 1200 1).getD ((614 : ℤ)).toNat 0
      = 0 := by
    rw [show ((614 : ℤ)).toNat = 614 from by simp]
    rw [List.getD_append _ _ _ _ (by simp only [List.length_replicate]; norm_num)]
    rw [getD_replicate]
    norm_num
  have h2 : (List.replicate 848 (0 : ℚ) ++ List.replicate 1200 1).getD ((615 : ℤ)).toNat 0
      = 0 := by
    rw [show ((615 : ℤ)).toNat = 615 from by simp]
    rw [List.getD_append _ _ _ _ (by simp only [List.length_replicate]; norm_num)]
    rw [getD_replicate]
    norm_num
  rw [h1, h2]
  norm_num

theorem act_y0 : y0.map (fun x => decide ((0 : ℚ) < x))
    = List.replicate 600 false ++ (List.replicate 1200 true ++ List.replicate 248 false) := by
  have h0 : (decide ((0 : ℚ) < 0)) = false := by simp
  have h1 : (decide ((0 : ℚ) < 1)) = true := by norm_num
  unfold y0
  simp only [List.map_append, List.map_replicate, h0, h1]
  rw [List.append_assoc]

theorem detectLoop_skip_out (minS : ℤ) (len : ℕ) (rest : List Bool) :
    ∀ (k i s : ℕ) (segs : List (ℕ × ℕ)),
      detectLoop minS len (List.replicate k false ++ rest) i false s segs
        = detectLoop minS len rest (i + k) false s segs := by
  intro k
  induction k with
  | zero =>
    intro i s segs
    simp
  | succ k ih =>
    intro i s segs
    rw [List.replicate_succ, List.cons_append]
    simp only [detectLoop]
    rw [if_neg (by simp), if_neg (by simp)]
    rw [ih (i + 1) s segs]
    congr 1
    omega

theorem detectLoop_through_in (minS : ℤ) (len : ℕ) (rest : List Bool) :
    ∀ (k i s : ℕ) (segs : List (ℕ × ℕ)),
      detectLoop minS len (List.replicate k true ++ rest) i true s segs
        = detectLoop minS len rest (i + k) true s segs := by
  intro k
  induction k with
  | zero =>
    intro i s segs
    simp
  | succ k ih =>
    intro i s segs
    rw [List.replicate_succ, List.cons_append]
    simp only [detectLoop]
    rw [if_neg (by simp), if_neg (by simp)]
    rw [ih (i + 1) s segs]
    congr 1
    omega

theorem detectLoop_enter (minS : ℤ) (len : ℕ) (rest : List Bool) (k i s : ℕ)
    (segs : List (ℕ × ℕ)) (hk : k ≠ 0) :
    detectLoop minS len (List.replicate k true ++ rest) i false s segs
      = detectLoop minS len rest (i + k) true (i * 512) segs := by
  rcases k with _ | k
  · exact absurd rfl hk
  · rw [List.replicate_succ, List.cons_append]
    simp only [detectLoop]
    rw [if_pos (by simp)]
    rw [detectLoop_through_in minS len rest k (i + 1) (i * 512) segs]
    congr 1
    omega

theorem detectLoop_skip_out_end (minS : ℤ) (len : ℕ) :
    ∀ (k i s : ℕ) (segs : List (ℕ × ℕ)),
      detectLoop minS len (List.replicate k false) i false s segs = segs := by
  intro k
  induction k with
  | zero =>
    intro i s segs
    simp only [List.replicate_zero]
    simp only [detectLoop]
    rw [if_neg (by simp)]
  | succ k ih =>
    intro i s segs
    rw [List.replicate_succ]
    simp only [detectLoop]
    rw [if_neg (by simp), if_neg (by simp)]
    exact ih (i + 1) s segs

theorem detectLoop_exit_end (minS : ℤ) (len : ℕ) (k i s : ℕ) (segs : List (ℕ × ℕ))
    (hk : k ≠ 0) :
    detectLoop minS len (List.replicate k false) i true s segs
      = (if minS ≤ (i * 512 : ℤ) - (s : ℤ) then segs ++ [(s, min (i * 512) len)]
        else segs) := by
  rcases k with _ | k
  · exact absurd rfl hk
  · rw [List.replicate_succ]
    simp only [detectLoop]
    rw [if_neg (by simp), if_pos (by simp)]
    exact detectLoop_skip_out_end minS len k (i + 1) s _

/-- On the counterexample signal the detector reports one segment with
start sample 307200 — far beyond the 2048-sample signal — because the
activity vector indexes intra-frame offsets, not frames. -/
theorem detect_y0 : detect_voice_segments true y0 22050 3 = [(307200, 2048)] := by
  unfold detect_voice_segments
  rw [if_neg (by rw [y0_length]; norm_num)]
  dsimp only
  rw [if_pos rfl]
  rw [energy_y0, medfilt5_y0, thr_y0, act_y0, y0_length]
  have hm : (⌊(3 : ℚ) * ((22050 : ℕ) : ℚ)⌋ : ℤ) = 66150 := by norm_num
  rw [hm]
  rw [detectLoop_skip_out 66150 2048 _ 600 0 0 []]
  rw [detectLoop_enter 66150 2048 _ 1200 (0 + 600) 0 [] (by norm_num)]
  rw [detectLoop_exit_end 66150 2048 248 (0 + 600 + 1200) ((0 + 600) * 512) []
    (by norm_num)]
  rw [if_pos (by norm_num)]
  norm_num

theorem slice_y0 : pySlice y0 307200 2048 = [] := by
  unfold pySlice
  rw [List.drop_eq_nil_of_le (by rw [y0_length]; norm_num)]
  simp

theorem trimNonSilent_nil : trimNonSilent [] = [true] := by
  have hmse : trimMse [] 0 = 0 := by
    unfold trimMse
    rw [List.sum_eq_zero]
    · norm_num
    · intro x hx
      obtain ⟨j, hj, rfl⟩ := List.mem_map.mp hx
      simp [padGet]
  unfold trimNonSilent
  simp only [List.length_nil, Nat.zero_div, Nat.add_zero,
    show List.range 1 = [0] from rfl, List.map_cons, List.map_nil, hmse]
  have href : npMax [(0 : ℚ)] = 0 := rfl
  rw [href]
  have hcond : (max amin2 0 < 100 * max amin2 0) := by
    rw [show max amin2 (0 : ℚ) = amin2 from max_eq_left (by norm_num [amin2])]
    norm_num [amin2]
  simp [hcond]

theorem librosaTrim_single (y : List ℚ) (h : trimNonSilent y = [true]) :
    librosaTrim y = pySlice y 0 (min y.length 512) := by
  unfold librosaTrim
  dsimp only
  rw [h]
  rfl

theorem librosaTrim_nil : librosaTrim [] = [] := by
  rw [librosaTrim_single [] trimNonSilent_nil]
  rfl

theorem clean_audio_segment_nil (c : Sos) (scipyOn : Bool) :
    clean_audio_segment c scipyOn [] = [] := by
  unfold clean_audio_segment
  rw [librosaTrim_nil]
  dsimp only
  cases scipyOn <;> simp [librosaNormalize, sosfilt, sosfiltGo]

/-- C8: counterexample.  On a 2048-sample recording at 22050 Hz (0.093
seconds: 600 zero samples, 1200 full-scale samples, 248 zero samples)
with the default `min_segment_duration = 3`, `extract_voice_segments`
returns exactly one segment file and that file is EMPTY: duration 0,
far below the required 3 seconds.  The detector takes the 2048
per-offset energies as frame indices, computes the segment (307200,
min(921600, 2048)), passes the `>= min_samples` check on the unclamped
difference 614400, and the slice `y[307200:2048]` is empty. -/
theorem voice_segment_below_min_duration_cx :
    ((extract_voice_segments idSos true true y0 22050 3).map
        (fun seg => ((seg.length : ℚ)) / 22050) = [0])
    ∧ (0 : ℚ) < 3 := by
  constructor
  · unfold extract_voice_segments
    rw [if_neg (by simp)]
    rw [detect_y0]
    simp only [List.map_cons, List.map_nil]
    rw [show pySlice y0 (307200, 2048).1 (307200, 2048).2 = pySlice y0 307200 2048 from rfl]
    rw [slice_y0, clean_audio_segment_nil]
    norm_num
  · norm_num

end CloneKing
